import Mathlib

/-!
# vegawallet-dummy: the always-agree interactor and the `service run` command

A shallow embedding of `interactors/always-agree.go` and `cmd/service_run.go`.

* Go strings are Lean `String`s; `==` on them is exact, case-sensitive equality.
* A Go `error` result is an `Option GoError` (`none` is `nil`).
* Methods with a pointer receiver are state-passing functions: they take the
  receiver and give back the receiver after the call.
* The zap logger is an external library; it is embedded as a recording sink that
  keeps every entry written to it, in order.
-/

namespace VegaWalletDummy

/-! ## Errors and logging -/

/-- Go error values: `errors.New` sentinels and causes coming from the libraries
(`sentinel`), `fmt.Errorf("<msg>: %w", cause)` (`wrap`), and the two error
constructors of the wallet library used by the command. -/
inductive GoError where
  | sentinel (msg : String)
  | wrap (msg : String) (cause : GoError)
  | mustBeSpecified (flag : String)
  | networkDoesNotExist (name : String)
  deriving DecidableEq, Repr

/-- Time stamps (`time.Time`), as an integer instant. -/
abbrev Time := Int

/-- Log levels used by the program. -/
inductive Level where
  | debug | info | warn | error
  deriving DecidableEq, Repr

/-- The zap fields attached to a log entry. -/
inductive Field where
  | str (key val : String)
  | strs (key : String) (vals : List String)
  | time (key : String) (t : Time)
  | err (key : String) (e : Option GoError)
  | any (key : String) (perms : List (String × String))
  deriving DecidableEq, Repr

/-- One entry written to a logger. -/
structure LogEntry where
  level : Level
  msg : String
  fields : List Field
  deriving DecidableEq, Repr

/-- A `*zap.Logger`: its name and the entries written to it so far. -/
structure Logger where
  name : String
  written : List LogEntry
  deriving DecidableEq, Repr

/-- Write one entry. -/
def Logger.write (l : Logger) (lvl : Level) (msg : String) (fields : List Field) : Logger :=
  { l with written := l.written ++ [⟨lvl, msg, fields⟩] }

def Logger.Debug (l : Logger) (msg : String) (fields : List Field) : Logger :=
  l.write Level.debug msg fields

def Logger.Info (l : Logger) (msg : String) (fields : List Field) : Logger :=
  l.write Level.info msg fields

def Logger.Error (l : Logger) (msg : String) (fields : List Field) : Logger :=
  l.write Level.error msg fields

/-! ## interactors/always-agree.go -/

def ErrWalletSelectionDoesNotContainConfiguredOne : GoError :=
  GoError.sentinel "the wallet selection doesn't contain the configured one"

def ErrRequestedWalletDoesNotMatchConfiguredOne : GoError :=
  GoError.sentinel "the requested wallet doesn't match with the configured one"

/-- The struct `walletapi.SelectedWallet`. -/
structure SelectedWallet where
  Wallet : String
  Passphrase : String
  deriving DecidableEq, Repr

/-- The struct `AlwaysAgreeInteractor`. -/
structure AlwaysAgreeInteractor where
  Logger : Logger
  ConfiguredWallet : String
  WalletPassphrase : String
  deriving DecidableEq, Repr

namespace AlwaysAgreeInteractor

/-- The statement `a.Logger.Debug(msg, fields...)`. -/
def logDebug (a : AlwaysAgreeInteractor) (msg : String) (fields : List Field) :
    AlwaysAgreeInteractor :=
  { a with Logger := a.Logger.Debug msg fields }

/-- The statement `a.Logger.Info(msg, fields...)`. -/
def logInfo (a : AlwaysAgreeInteractor) (msg : String) (fields : List Field) :
    AlwaysAgreeInteractor :=
  { a with Logger := a.Logger.Info msg fields }

/-- The statement `a.Logger.Error(msg, fields...)`. -/
def logError (a : AlwaysAgreeInteractor) (msg : String) (fields : List Field) :
    AlwaysAgreeInteractor :=
  { a with Logger := a.Logger.Error msg fields }

def NotifyInteractionSessionBegan (a : AlwaysAgreeInteractor) (traceID : String) :
    Option GoError × AlwaysAgreeInteractor :=
  let a := a.logInfo "NotifyInteractionSessionBegan does nothing" [.str "trace-id" traceID]
  (none, a)

def NotifyInteractionSessionEnded (a : AlwaysAgreeInteractor) (traceID : String) :
    AlwaysAgreeInteractor :=
  a.logDebug "NotifyInteractionSessionEnded does nothing" [.str "trace-id" traceID]

def NotifySuccessfulTransaction (a : AlwaysAgreeInteractor)
    (traceID txHash _deserializedInputData _tx : String) (sentAt : Time) :
    AlwaysAgreeInteractor :=
  a.logDebug "NotifySuccessfulTransaction does nothing"
    [.str "trace-id" traceID, .str "tx-hash" txHash, .time "sent-at" sentAt]

def NotifyFailedTransaction (a : AlwaysAgreeInteractor)
    (traceID _deserializedInputData _tx : String) (err : Option GoError) (sentAt : Time) :
    AlwaysAgreeInteractor :=
  a.logDebug "NotifyFailedTransaction does nothing"
    [.str "trace-id" traceID, .err "error" err, .time "sent-at" sentAt]

def NotifySuccessfulRequest (a : AlwaysAgreeInteractor) (traceID message : String) :
    AlwaysAgreeInteractor :=
  a.logDebug "NotifySuccessfulRequest does nothing"
    [.str "trace-id" traceID, .str "message" message]

def NotifyError (a : AlwaysAgreeInteractor) (traceID : String) (t : String)
    (err : Option GoError) : AlwaysAgreeInteractor :=
  a.logDebug "NotifyError  does nothing"
    [.str "trace-id" traceID, .str "error-type" t, .err "error" err]

def Log (a : AlwaysAgreeInteractor) (traceID : String) (t : String) (msg : String) :
    AlwaysAgreeInteractor :=
  a.logDebug "Log does nothing"
    [.str "trace-id" traceID, .str "log-type" t, .str "message" msg]

def RequestWalletConnectionReview (a : AlwaysAgreeInteractor) (traceID hostname : String) :
    (String × Option GoError) × AlwaysAgreeInteractor :=
  let a := a.logDebug "RequestWalletConnectionReview called"
    [.str "trace-id" traceID, .str "hostname" hostname]
  let a := a.logInfo
    "RequestWalletConnectionReview approves the connection request only this time"
    [.str "trace-id" traceID, .str "hostname" hostname]
  (("APPROVED_ONLY_THIS_TIME", none), a)

/-- The loop of `RequestWalletSelection`: `matched` starts `false`, the first
entry equal to the configured wallet sets it and breaks. -/
def RequestWalletSelection.matched (configuredWallet : String) : List String → Bool
  | [] => false
  | wallet :: rest =>
    if wallet == configuredWallet then true
    else RequestWalletSelection.matched configuredWallet rest

def RequestWalletSelection (a : AlwaysAgreeInteractor) (traceID hostname : String)
    (availableWallets : List String) :
    (SelectedWallet × Option GoError) × AlwaysAgreeInteractor :=
  let a := a.logDebug "RequestWalletSelection called"
    [.str "trace-id" traceID, .str "hostname" hostname, .strs "wallets" availableWallets]
  let matched := RequestWalletSelection.matched a.ConfiguredWallet availableWallets
  if !matched then
    let a := a.logError
      "RequestWalletSelection has been called with a selection that does not contain the configured wallet, verify you configured an existing wallet"
      [.str "trace-id" traceID, .strs "wallets" availableWallets,
       .str "configured-wallet" a.ConfiguredWallet]
    ((⟨"", ""⟩, some ErrWalletSelectionDoesNotContainConfiguredOne), a)
  else
    let a := a.logInfo "RequestWalletSelection selects the default wallet"
      [.str "trace-id" traceID, .str "wallet" a.ConfiguredWallet,
       .str "passphrase" a.WalletPassphrase]
    ((⟨a.ConfiguredWallet, a.WalletPassphrase⟩, none), a)

def RequestPassphrase (a : AlwaysAgreeInteractor) (traceID wallet : String) :
    (String × Option GoError) × AlwaysAgreeInteractor :=
  let a := a.logDebug "RequestPassphrase called"
    [.str "trace-id" traceID, .str "wallet" wallet]
  if wallet != a.ConfiguredWallet then
    let a := a.logError
      "RequestPassphrase has been called with a different wallet than the one configured, using different wallet is not supported yet"
      [.str "configured-wallet" a.ConfiguredWallet, .str "requested-wallet" wallet]
    (("", some ErrRequestedWalletDoesNotMatchConfiguredOne), a)
  else
    let a := a.logInfo "RequestPassphrase returns the passphrase"
      [.str "trace-id" traceID, .str "wallet" wallet, .str "passphrase" wallet]
    ((a.WalletPassphrase, none), a)

def RequestPermissionsReview (a : AlwaysAgreeInteractor) (traceID hostname wallet : String)
    (perms : List (String × String)) : (Bool × Option GoError) × AlwaysAgreeInteractor :=
  let a := a.logDebug "RequestPermissionsReview called"
    [.str "trace-id" traceID, .str "hostname" hostname, .any "permissions" perms]
  if wallet != a.ConfiguredWallet then
    let a := a.logError
      "RequestPermissionsReview has been called with a different wallet than the one configured, using different wallet is not supported yet"
      [.str "configured-wallet" a.ConfiguredWallet, .str "requested-wallet" wallet]
    ((false, some ErrRequestedWalletDoesNotMatchConfiguredOne), a)
  else
    let a := a.logInfo "RequestPermissionsReview approves the permissions"
      [.str "trace-id" traceID, .str "hostname" hostname, .str "wallet" wallet,
       .any "permissions" perms]
    ((true, none), a)

def RequestTransactionReviewForSending (a : AlwaysAgreeInteractor)
    (traceID hostname wallet pubKey _transaction : String) (_receivedAt : Time) :
    (Bool × Option GoError) × AlwaysAgreeInteractor :=
  let a := a.logDebug "RequestTransactionReviewForSending called"
    [.str "trace-id" traceID, .str "hostname" hostname, .str "public-key" pubKey]
  if wallet != a.ConfiguredWallet then
    let a := a.logError
      "RequestTransactionReviewForSending has been called with a different wallet than the one configured, using different wallet is not supported yet"
      [.str "configured-wallet" a.ConfiguredWallet, .str "requested-wallet" wallet]
    ((false, some ErrRequestedWalletDoesNotMatchConfiguredOne), a)
  else
    let a := a.logInfo "RequestTransactionReviewForSending approves the transaction sending"
      [.str "trace-id" traceID]
    ((true, none), a)

def RequestTransactionReviewForSigning (a : AlwaysAgreeInteractor)
    (traceID hostname wallet pubKey _transaction : String) (_receivedAt : Time) :
    (Bool × Option GoError) × AlwaysAgreeInteractor :=
  let a := a.logDebug "RequestTransactionReviewForSigning called"
    [.str "trace-id" traceID, .str "hostname" hostname, .str "public-key" pubKey]
  if wallet != a.ConfiguredWallet then
    let a := a.logError
      "RequestTransactionReviewForSigning has been called with a different wallet than the one configured, using different wallet is not supported yet"
      [.str "configured-wallet" a.ConfiguredWallet, .str "requested-wallet" wallet]
    ((false, some ErrRequestedWalletDoesNotMatchConfiguredOne), a)
  else
    let a := a.logInfo "RequestTransactionReviewForSigning approves the transaction sending"
      [.str "trace-id" traceID]
    ((true, none), a)

end AlwaysAgreeInteractor

/-! ## cmd/root.go and cmd/service_run.go: flags -/

/-- The struct `RootFlags`. -/
structure RootFlags where
  Home : String
  deriving DecidableEq, Repr

/-- The struct `RunServiceFlags`. -/
structure RunServiceFlags where
  Network : String
  Wallet : String
  PassphraseFile : String
  LogLevel : String
  LogFormat : String
  deriving DecidableEq, Repr

/-- Go's `len` of a string: its number of bytes. -/
def len (s : String) : Nat := s.utf8ByteSize

/-- The method `(*RunServiceFlags).Validate`; `flags.MustBeSpecifiedError(name)` is the
library's error for a missing flag. -/
def RunServiceFlags.Validate (f : RunServiceFlags) : Option GoError :=
  if len f.Network == 0 then
    some (GoError.mustBeSpecified "network")
  else if len f.Wallet == 0 then
    some (GoError.mustBeSpecified "wallet")
  else if len f.PassphraseFile == 0 then
    some (GoError.mustBeSpecified "passphrase-file")
  else
    none

/-! ## cmd/service_run.go: executions

A run of the command is recorded as the list of observable events of the process:
each call into a library stage with what it returned, each log line, and, once the
service is assembled, the actions of the main path, of the goroutine that serves,
and the signals delivered to the process, in the order in which they happen. -/

/-- The fallible bootstrap stages of `RunService`, in source order. -/
inductive Stage where
  | passphraseRead | loggerBuild | walletStore | walletUnlock | networkStore
  | networkExistence | networkConfigFetch | connectivity | networkVersion
  | serviceStore | initCheck | auth | forwarder | nodeSelector | apiClient
  | serviceAssembly
  deriving DecidableEq, Repr

/-- Position of a stage in the bootstrap order, starting at 1. -/
def Stage.idx : Stage → Nat
  | .passphraseRead => 1 | .loggerBuild => 2 | .walletStore => 3 | .walletUnlock => 4
  | .networkStore => 5 | .networkExistence => 6 | .networkConfigFetch => 7
  | .connectivity => 8 | .networkVersion => 9 | .serviceStore => 10 | .initCheck => 11
  | .auth => 12 | .forwarder => 13 | .nodeSelector => 14 | .apiClient => 15
  | .serviceAssembly => 16

/-- What a stage's library call gave back: its handle (`done`), an error
(`failed cause`), or, for the two boolean queries, the answer `false` with no error
(`refused`). -/
inductive StageResult where
  | done
  | refused
  | failed (cause : GoError)
  deriving DecidableEq, Repr

/-- The signals registered by `waitSig`. -/
inductive Signal where
  | SIGTERM
  | SIGINT
  | SIGQUIT
  deriving DecidableEq, Repr

/-- The text `fmt.Sprintf("%+v", sig)` gives for a signal. -/
def Signal.format : Signal → String
  | .SIGTERM => "terminated"
  | .SIGINT => "interrupt"
  | .SIGQUIT => "quit"

/-- The service built by `service.NewService`, as a token. -/
structure Service where
  id : Nat
  deriving DecidableEq, Repr

/-- Observable events of an execution. `delivered sig` is a signal reaching the
process and being relayed by `os/signal`; `sendOnClosedChannel sig` is the run-time
panic of `os/signal` relaying a signal to a channel that has been closed. -/
inductive Event where
  | stage (s : Stage) (r : StageResult)
  | log (logger : String) (lvl : Level) (msg : String) (fields : List Field)
  | handlerCalled
  | spawn
  | start (srv : Service) (r : Option GoError)
  | stop (srv : Service) (r : Option GoError)
  | cancel
  | signalNotify (sig : Signal)
  | received (sig : Option Signal)
  | closeGracefulStop
  | delivered (sig : Signal)
  | sendOnClosedChannel (sig : Signal)
  deriving DecidableEq, Repr

/-- How an execution of a Go function ends: it returns its `error` result
(`returned`), the process dies in a panic (`panicked`), or the recorded execution
stops while the function is still running (`running`). -/
inductive Outcome where
  | returned (err : Option GoError)
  | panicked
  | running
  deriving DecidableEq, Repr

/-- A piece of a function body, run to its end: the events it produced, and either
the value it goes on with (`cont`), how it left the function with its deferred calls
still to run (`halt`), or how the function ended, deferred calls included
(`done`). -/
inductive Run (α : Type) where
  | cont (t : List Event) (a : α)
  | halt (t : List Event) (o : Outcome)
  | done (t : List Event) (o : Outcome)

namespace Run

/-- The events of a run. -/
def trace {α : Type} : Run α → List Event
  | .cont t _ => t
  | .halt t _ => t
  | .done t _ => t

/-- The same run after the events `t`. -/
def after {α : Type} (t : List Event) : Run α → Run α
  | .cont t' a => .cont (t ++ t') a
  | .halt t' o => .halt (t ++ t') o
  | .done t' o => .done (t ++ t') o

/-- The same run with the deferred calls, whose events are `t`, run when the
function is left. -/
def followedBy {α : Type} (t : List Event) : Run α → Run α
  | .cont t' a => .cont (t' ++ t) a
  | .halt t' o => .halt (t' ++ t) o
  | .done t' o => .done t' o

def bind {α β : Type} (m : Run α) (f : α → Run β) : Run β :=
  match m with
  | .cont t a => (f a).after t
  | .halt t o => .halt t o
  | .done t o => .done t o

instance : Monad Run where
  pure a := .cont [] a
  bind := Run.bind

/-- Record one event. -/
def emit (e : Event) : Run Unit := .cont [e] ()

/-- The statement `return err`. -/
def ret {α : Type} (err : Option GoError) : Run α := .halt [] (.returned err)

/-- A nil-pointer dereference. -/
def panic {α : Type} : Run α := .halt [] .panicked

/-- The statement `defer d` followed by `body`: `d` runs when `body` is left by a
return or a panic of its own; what `d` returns is dropped. -/
def withDefer {α : Type} (d : Run Unit) (body : Run α) : Run α :=
  body.followedBy d.trace

/-- Call a library stage: record the stage with its result, hand the result on. -/
def invoke {α : Type} (s : Stage) (r : Except GoError α) : Run (Except GoError α) :=
  match r with
  | .ok a => .cont [.stage s .done] (.ok a)
  | .error e => .cont [.stage s (.failed e)] (.error e)

/-- Call a library stage that answers a boolean query. -/
def query (s : Stage) (r : Except GoError Bool) : Run (Except GoError Bool) :=
  match r with
  | .ok true => .cont [.stage s .done] (.ok true)
  | .ok false => .cont [.stage s .refused] (.ok false)
  | .error e => .cont [.stage s (.failed e)] (.error e)

/-- Call a library stage that only reports an error. -/
def check (s : Stage) (r : Option GoError) : Run (Option GoError) :=
  match r with
  | none => .cont [.stage s .done] none
  | some e => .cont [.stage s (.failed e)] (some e)

/-- The whole function: falling off the end returns `nil`. -/
def exec (m : Run Unit) : List Event × Outcome :=
  match m with
  | .cont t _ => (t, .returned none)
  | .halt t o => (t, o)
  | .done t o => (t, o)

end Run

/-- The statement `l.Debug(msg, fields...)` on the main path. -/
def Logger.debugE (l : Logger) (msg : String) (fields : List Field) : Run Unit :=
  Run.emit (.log l.name .debug msg fields)

/-- The statement `l.Info(msg, fields...)` on the main path. -/
def Logger.infoE (l : Logger) (msg : String) (fields : List Field) : Run Unit :=
  Run.emit (.log l.name .info msg fields)

/-- The statement `l.Warn(msg, fields...)` on the main path. -/
def Logger.warnE (l : Logger) (msg : String) (fields : List Field) : Run Unit :=
  Run.emit (.log l.name .warn msg fields)

/-- The statement `l.Error(msg, fields...)` on the main path. -/
def Logger.errorE (l : Logger) (msg : String) (fields : List Field) : Run Unit :=
  Run.emit (.log l.name .error msg fields)

/-- zap's `(*Logger).Named` on a non-nil logger: a child logger whose name is
extended by `s`. -/
def Logger.Named (l : Logger) (s : String) : Logger :=
  if s == "" then l
  else if l.name == "" then { l with name := s }
  else { l with name := l.name ++ "." ++ s }

/-! ## cmd/service_run.go: concurrent execution

Once the service is assembled the process has two execution paths, the main path
and the goroutine started by the `go` statement, and it can be sent signals at any
moment. An execution is a schedule: the order in which the two paths take their
next step and in which signals arrive. The paths share the cancellable context and
the channel `gracefulStop`. -/

/-- The remaining program of one execution path, statement by statement. `start` and
`stop` are the calls `srv.Start()` and `srv.Stop()`, `cancel` a call of the context's
cancel function, `notify` a call `signal.Notify(gracefulStop, sig)`, `select` the
`select` of `waitSig` over `gracefulStop` and `ctx.Done()`, `close` the call
`close(gracefulStop)`, and `ret` the end of the path. The calls `srv.Start()` and
`srv.Stop()` block until the server has ended; when they return is up to the
schedule, what they return is up to the library. -/
inductive Prog where
  | ret
  | log (logger : String) (lvl : Level) (msg : String) (fields : List Field) (next : Prog)
  | spawn (child : Prog) (next : Prog)
  | start (srv : Service) (next : Option GoError → Prog)
  | stop (srv : Service) (next : Option GoError → Prog)
  | cancel (next : Prog)
  | notify (sig : Signal) (next : Prog)
  | select (onSignal : Option Signal → Prog) (onDone : Prog)
  | close (next : Prog)

/-- Whether a path has ended. -/
def Prog.isRet : Prog → Bool
  | .ret => true
  | _ => false

/-- The two execution paths. -/
inductive Path where
  | main
  | routine
  deriving DecidableEq, Repr

/-- One move of a schedule: a path takes its next step (`preferDone` says which case
a `select` takes when both are ready, Go choosing either), or a signal is delivered
to the process. -/
inductive Label where
  | step (who : Path) (preferDone : Bool)
  | deliver (sig : Signal)
  deriving DecidableEq, Repr

/-- The state of the process: what is left of each path, whether the context has been
cancelled, the signals registered for `gracefulStop`, the content of that channel
(its capacity is one), whether it has been closed, whether the process has died in a
panic, and the events so far. -/
structure Sys where
  main : Prog
  routine : Option Prog
  cancelled : Bool
  registered : List Signal
  buffered : Option Signal
  closed : Bool
  crashed : Bool
  trace : List Event

namespace Sys

/-- The state in which the main path starts program `p`. -/
def init (p : Prog) : Sys :=
  { main := p, routine := none, cancelled := false, registered := [], buffered := none,
    closed := false, crashed := false, trace := [] }

/-- Record one event. -/
def emit (s : Sys) (e : Event) : Sys :=
  { s with trace := s.trace ++ [e] }

/-- A signal reaches the process. When it is registered, `os/signal` relays it with a
send that does not block: the signal is stored when the channel has room and dropped
otherwise, and the send panics when the channel has been closed. A signal that is not
registered is left to the default action of the Go runtime, which is not part of this
program: the state is unchanged. -/
def deliver (sig : Signal) (s : Sys) : Sys :=
  if s.registered.contains sig then
    if s.closed then
      { s with crashed := true,
               trace := s.trace ++ [.delivered sig, .sendOnClosedChannel sig] }
    else
      match s.buffered with
      | none => { s with buffered := some sig, trace := s.trace ++ [.delivered sig] }
      | some _ => { s with trace := s.trace ++ [.delivered sig] }
  else
    s

end Sys

/-- The next step of a path whose remaining program is the first argument: the
program left after the step and the new state, or `none` when the path has ended or
is blocked in a `select` with no case ready. A receive is ready when the channel
holds a signal, or is closed and empty (it then yields the zero value); the context
case is ready once the context is cancelled. -/
def Prog.step (startResult stopResult : Service → Option GoError) (preferDone : Bool) :
    Prog → Sys → Option (Prog × Sys)
  | .ret, _ => none
  | .log logger lvl msg fields next, s => some (next, s.emit (.log logger lvl msg fields))
  | .spawn child next, s => some (next, { s.emit .spawn with routine := some child })
  | .start srv next, s =>
    some (next (startResult srv), s.emit (.start srv (startResult srv)))
  | .stop srv next, s =>
    some (next (stopResult srv), s.emit (.stop srv (stopResult srv)))
  | .cancel next, s => some (next, { s.emit .cancel with cancelled := true })
  | .notify sig next, s =>
    some (next, { s.emit (.signalNotify sig) with registered := sig :: s.registered })
  | .select onSignal onDone, s =>
    match s.buffered, s.closed, s.cancelled with
    | some sig, _, true =>
      if preferDone then some (onDone, s)
      else some (onSignal (some sig), { s.emit (.received (some sig)) with buffered := none })
    | some sig, _, false =>
      some (onSignal (some sig), { s.emit (.received (some sig)) with buffered := none })
    | none, true, true =>
      if preferDone then some (onDone, s)
      else some (onSignal none, s.emit (.received none))
    | none, true, false => some (onSignal none, s.emit (.received none))
    | none, false, true => some (onDone, s)
    | none, false, false => none
  | .close next, s => some (next, { s.emit .closeGracefulStop with closed := true })

namespace Sys

/-- One move of the schedule. Nothing moves once the process has died in a panic or
the main path has returned (the process then exits); a path that has ended or is
blocked does not move. -/
def step (startResult stopResult : Service → Option GoError) (l : Label) (s : Sys) : Sys :=
  if s.crashed || s.main.isRet then s
  else
    match l with
    | .deliver sig => s.deliver sig
    | .step .main preferDone =>
      match s.main.step startResult stopResult preferDone s with
      | some (p, s') => { s' with main := p }
      | none => s
    | .step .routine preferDone =>
      match s.routine with
      | none => s
      | some r =>
        match r.step startResult stopResult preferDone s with
        | some (p, s') => { s' with routine := some p }
        | none => s

/-- A whole schedule, move by move. -/
def run (startResult stopResult : Service → Option GoError) (schedule : List Label)
    (s : Sys) : Sys :=
  schedule.foldl (fun s l => s.step startResult stopResult l) s

/-- How the execution stands at the end of the schedule. -/
def outcome (s : Sys) : Outcome :=
  if s.crashed then .panicked
  else if s.main.isRet then .returned none
  else .running

end Sys

/-! ## cmd/service_run.go: the libraries the command calls

The wallet, network, service and node packages are external. Their handles are
tokens; their functions are the fields of `Env`, one per call made by `RunService`. -/

structure WalletStore where
  id : Nat
  deriving DecidableEq, Repr

structure WalletHandler where
  store : WalletStore
  deriving DecidableEq, Repr

structure Paths where
  home : String
  deriving DecidableEq, Repr

structure NetStore where
  id : Nat
  deriving DecidableEq, Repr

structure SvcStore where
  id : Nat
  deriving DecidableEq, Repr

structure Auth where
  id : Nat
  deriving DecidableEq, Repr

structure Forwarder where
  id : Nat
  deriving DecidableEq, Repr

structure Selector where
  id : Nat
  deriving DecidableEq, Repr

structure JSONRPCAPI where
  id : Nat
  deriving DecidableEq, Repr

/-- The value of `service.NewAutomaticConsentPolicy()`. -/
inductive ConsentPolicy where
  | automatic
  deriving DecidableEq, Repr

/-- The part `cfg.API.GRPC` of a network configuration. -/
structure GRPCConfig where
  Hosts : List String
  Retries : Nat
  deriving DecidableEq, Repr

structure APIConfig where
  GRPC : GRPCConfig
  deriving DecidableEq, Repr

/-- The fields of `network.Network` read by `RunService`. -/
structure Network where
  Host : String
  Port : Int
  TokenExpiry : Int
  API : APIConfig
  deriving DecidableEq, Repr

/-- The function `paths.New`. -/
def paths.New (home : String) : Paths := ⟨home⟩

/-- The function `wallets.NewHandler`. -/
def wallets.NewHandler (store : WalletStore) : WalletHandler := ⟨store⟩

/-- The sentinel `http.ErrServerClosed`. -/
def ErrServerClosed : GoError := GoError.sentinel "http: Server closed"

/-- The function `errors.Is`: the target is the error itself or one of the causes
it wraps. -/
def GoError.Is : GoError → GoError → Bool
  | .wrap msg cause, target =>
    if GoError.wrap msg cause = target then true else GoError.Is cause target
  | e, target => decide (e = target)

/-- The library calls made by `RunService`, and the schedule of the execution once
the service is assembled. A call returning `(value, err)` is an `Except`; one
returning only `err` is an `Option`. -/
structure Env where
  ReadPassphraseFile : String → Except GoError String
  BuildStandardJSONLogger : String → Except GoError Logger
  BuildStandardConsoleLogger : String → Except GoError Logger
  walletsInitialiseStore : String → Except GoError WalletStore
  GetWallet : WalletStore → String → String → Except GoError Unit
  netstoreInitialiseStore : Paths → Except GoError NetStore
  NetworkExists : NetStore → String → Except GoError Bool
  GetNetwork : NetStore → String → Except GoError Network
  EnsureCanConnectGRPCNode : Network → Option GoError
  GetNetworkVersionThroughGRPC : List String → Except GoError String
  coreversionGet : String
  svcstoreInitialiseStore : Paths → Except GoError SvcStore
  IsInitialised : SvcStore → Except GoError Bool
  NewAuth : Logger → SvcStore → Int → Except GoError Auth
  NewForwarder : Logger → GRPCConfig → Except GoError Forwarder
  BuildRoundRobinSelectorWithRetryingNodes :
    Logger → List String → Nat → Except GoError Selector
  ClientAPI : Logger → WalletStore → AlwaysAgreeInteractor → Selector →
    Except GoError JSONRPCAPI
  NewService : Logger → Network → JSONRPCAPI → WalletHandler → Auth → Forwarder →
    ConsentPolicy → Except GoError Service
  Start : Service → Option GoError
  Stop : Service → Option GoError
  schedule : List Label

def ErrProgramIsNotInitialised : GoError :=
  GoError.sentinel "first, you need initialise the program, using the `init` command"

/-- The function `waitSig`, followed by `next`: create `gracefulStop`, register the
three signals, then wait in the `select`. Every case of the `select` returns, so the
loop body runs once; the deferred `close(gracefulStop)` runs at each return. -/
def waitSig (log : Logger) (next : Prog) : Prog :=
  .notify .SIGTERM <|
  .notify .SIGINT <|
  .notify .SIGQUIT <|
  .select
    (fun sig =>
      .log log.name .info "Caught signal"
        [.str "signal" (match sig with
          | some sg => sg.format
          | none => "<nil>")] <|
      .cancel <|
      .close next)
    (.close next)

/-- Lines 147 to 161 of `RunService`: the choice of the logger by `--log-format`.
The variable `logger` starts as the nil pointer (`none`). -/
def RunService.selectLogger (env : Env) (f : RunServiceFlags) : Run (Option Logger) := do
  if f.LogFormat == "json" then
    match ← Run.invoke .loggerBuild (env.BuildStandardJSONLogger f.LogLevel) with
    | .error err => Run.ret (some (.wrap "could not build the service logger" err))
    | .ok l => pure (some l)
  else if f.LogFormat == "console" then
    match ← Run.invoke .loggerBuild (env.BuildStandardConsoleLogger f.LogLevel) with
    | .error err => Run.ret (some (.wrap "could not build the service logger" err))
    | .ok l => pure (some l)
  else
    pure none

/-- The body of the goroutine started by `RunService`; its deferred `cancel()` runs
when it ends. -/
def RunService.serve (logger : Logger) (cfg : Network) (srv : Service) : Prog :=
  let serviceHost := "http://" ++ cfg.Host ++ ":" ++ toString cfg.Port
  .log logger.name .info "Starting HTTP service" [.str "url" serviceHost] <|
  .start srv fun err =>
    match err with
    | some e =>
      if !(e.Is ErrServerClosed) then
        .log logger.name .error "Failed to start HTTP server" [.err "error" (some e)] <|
        .cancel .ret
      else
        .cancel .ret
    | none => .cancel .ret

/-- The deferred function of `RunService` that stops the service, followed by
`next`. -/
def RunService.deferredStop (logger : Logger) (srv : Service) (next : Prog) : Prog :=
  .stop srv fun err =>
    match err with
    | some e =>
      .log logger.name .error "Failed to stop HTTP server" [.err "error" (some e)] next
    | none => .log logger.name .info "HTTP server stopped with success" [] next

/-- Lines 279 to 298 of `RunService`, as the program of the main path: start the
goroutine, wait in `waitSig`, and at `return nil` run the deferred calls, last
registered first: the function that stops the service (line 288), then `cancel()`
(line 218). -/
def RunService.lifecycle (logger : Logger) (cfg : Network) (srv : Service) : Prog :=
  .spawn (RunService.serve logger cfg srv) <|
  waitSig logger <|
  RunService.deferredStop logger srv <|
  .cancel .ret

/-- The execution of the process from the `go` statement on, under the schedule of
`env`. -/
def RunService.live (env : Env) (p : Prog) : Run Unit :=
  .done (Sys.run env.Start env.Stop env.schedule (Sys.init p)).trace
    (Sys.run env.Start env.Stop env.schedule (Sys.init p)).outcome

/-- Lines 220 to 298 of `RunService`: everything after `defer cancel()`. -/
def RunService.afterCancelDeferred (env : Env) (rf : RootFlags) (f : RunServiceFlags)
    (passphrase : String) (logger : Logger) (walletStore : WalletStore)
    (handler : WalletHandler) (cfg : Network) : Run Unit := do
  logger.debugE "Initializing the service store..." []
  let svcStore ←
    match ← Run.invoke .serviceStore (env.svcstoreInitialiseStore (paths.New rf.Home)) with
    | .error err => Run.ret (some (.wrap "couldn't initialise service store" err))
    | .ok v => pure v
  logger.debugE "The service store has been initialized" []
  logger.debugE "Verifying the service has been initialized..." []
  match ← Run.query .initCheck (env.IsInitialised svcStore) with
  | .error err => Run.ret (some (.wrap "couldn't verify service initialisation state" err))
  | .ok isInit => if !isInit then Run.ret (some ErrProgramIsNotInitialised) else pure ()
  logger.debugE "The service is properly initialized" []
  logger.debugE "Initializing API v1 authentication system..." []
  let auth ←
    match ← Run.invoke .auth (env.NewAuth (logger.Named "auth") svcStore cfg.TokenExpiry) with
    | .error err => Run.ret (some (.wrap "couldn't initialise authentication" err))
    | .ok v => pure v
  logger.debugE "API v1 authentication system has been initialized" []
  logger.debugE "Initializing API v1 node forwarder..." []
  let forwarder ←
    match ← Run.invoke .forwarder (env.NewForwarder (logger.Named "forwarder") cfg.API.GRPC) with
    | .error err => Run.ret (some (.wrap "couldn't initialise the node forwarder" err))
    | .ok v => pure v
  logger.debugE "API v1 node forwarder has been initialized" []
  let alwaysAgreeInteractor : AlwaysAgreeInteractor :=
    { Logger := logger.Named "always-agree-interactor"
      ConfiguredWallet := f.Wallet
      WalletPassphrase := passphrase }
  let jsonrpcLog := logger.Named "json-rpc"
  logger.debugE "Initializing API v2 node selector..." []
  let nodeSelector ←
    match ← Run.invoke .nodeSelector
        (env.BuildRoundRobinSelectorWithRetryingNodes jsonrpcLog cfg.API.GRPC.Hosts
          cfg.API.GRPC.Retries) with
    | .error err => do
      logger.errorE "Couldn't instantiate node API" [.err "error" (some err)]
      Run.ret (some (.wrap "couldn't instantiate the node API" err))
    | .ok v => pure v
  logger.debugE "API v2 node selector is initialized" []
  logger.debugE "Initializing API v2 client..." []
  let apiV2 ←
    match ← Run.invoke .apiClient
        (env.ClientAPI jsonrpcLog walletStore alwaysAgreeInteractor nodeSelector) with
    | .error err => Run.ret (some (.wrap "couldn't instantiate the JSON-RPC API" err))
    | .ok v => pure v
  logger.debugE "API v2 client is initialized" []
  logger.debugE "Initializing the service..." []
  let srv ←
    match ← Run.invoke .serviceAssembly
        (env.NewService (logger.Named "api") cfg apiV2 handler auth forwarder
          ConsentPolicy.automatic) with
    | .error err => Run.ret (some err)
    | .ok v => pure v
  logger.debugE "The service is initialized" []
  RunService.live env (RunService.lifecycle logger cfg srv)

/-- The body of `RunService`. -/
def RunService.body (env : Env) (rf : RootFlags) (f : RunServiceFlags) : Run Unit := do
  let passphrase ←
    match ← Run.invoke .passphraseRead (env.ReadPassphraseFile f.PassphraseFile) with
    | .error err => Run.ret (some err)
    | .ok v => pure v
  let logger ← RunService.selectLogger env f
  let logger ←
    match logger with
    | none => Run.panic
    | some l => pure (l.Named "service")
  logger.debugE "Initializing the wallet store..." []
  let walletStore ←
    match ← Run.invoke .walletStore (env.walletsInitialiseStore rf.Home) with
    | .error err => Run.ret (some (.wrap "couldn't initialise wallets store" err))
    | .ok v => pure v
  logger.debugE "The wallet store has been initialized" []
  match ← Run.invoke .walletUnlock (env.GetWallet walletStore f.Wallet passphrase) with
  | .error err => Run.ret (some (.wrap "could not retrieve the wallet" err))
  | .ok _ => pure ()
  let handler := wallets.NewHandler walletStore
  let vegaPaths := paths.New rf.Home
  logger.debugE "Initializing the network store..." []
  let netStore ←
    match ← Run.invoke .networkStore (env.netstoreInitialiseStore vegaPaths) with
    | .error err => Run.ret (some (.wrap "couldn't initialise network store" err))
    | .ok v => pure v
  logger.debugE "The network store has been initialized" []
  logger.debugE "Verifying the network exist..." [.str "network" f.Network]
  match ← Run.query .networkExistence (env.NetworkExists netStore f.Network) with
  | .error err => Run.ret (some (.wrap "couldn't verify the network existence" err))
  | .ok exists_ =>
    if !exists_ then Run.ret (some (GoError.networkDoesNotExist f.Network)) else pure ()
  logger.debugE "The network exists" []
  logger.debugE "Retrieving the network configuration..." [.str "network" f.Network]
  let cfg ←
    match ← Run.invoke .networkConfigFetch (env.GetNetwork netStore f.Network) with
    | .error err => Run.ret (some (.wrap "couldn't retrieve the network configuration" err))
    | .ok v => pure v
  logger.debugE "The network configuration has been retrieved" []
  logger.debugE
    "Ensuring the network configuration has the minimal configuration to connect to the network..."
    []
  match ← Run.check .connectivity (env.EnsureCanConnectGRPCNode cfg) with
  | some err => Run.ret (some err)
  | none => pure ()
  logger.debugE "The network configuration is ok" []
  let networkVersion ←
    match ← Run.invoke .networkVersion
        (env.GetNetworkVersionThroughGRPC cfg.API.GRPC.Hosts) with
    | .error err => Run.ret (some err)
    | .ok v => pure v
  if networkVersion != env.coreversionGet then
    logger.warnE "This software is not compatible with this network"
      [.str "network-version" networkVersion, .str "backend-version" env.coreversionGet]
  Run.withDefer (Run.emit .cancel)
    (RunService.afterCancelDeferred env rf f passphrase logger walletStore handler cfg)

/-- The function `RunService`: the events of the main path and how the call ends. -/
def RunService (env : Env) (rf : RootFlags) (f : RunServiceFlags) : List Event × Outcome :=
  Run.exec (RunService.body env rf f)

/-- The `RunE` closure built by `BuildCmdRunService`, for flags `f` as parsed. -/
def BuildCmdRunService.RunE (handler : RootFlags → RunServiceFlags → List Event × Outcome)
    (rf : RootFlags) (f : RunServiceFlags) : List Event × Outcome :=
  match f.Validate with
  | some err => ([], .returned (some err))
  | none =>
    match handler rf f with
    | (t, .returned (some err)) => (.handlerCalled :: t, .returned (some err))
    | (t, .returned none) => (.handlerCalled :: t, .returned none)
    | (t, .panicked) => (.handlerCalled :: t, .panicked)
    | (t, .running) => (.handlerCalled :: t, .running)

/-- The `RunE` of `NewCmdRunService`, whose handler is `RunService`. -/
def NewCmdRunService.RunE (env : Env) (rf : RootFlags) (f : RunServiceFlags) :
    List Event × Outcome :=
  BuildCmdRunService.RunE (RunService env) rf f

/-! ## Observations on executions -/

/-- Log lines, as opposed to calls and lifecycle actions. -/
def Event.isLog : Event → Bool
  | .log _ _ _ _ => true
  | _ => false

/-- The events of a trace that are not log lines. -/
def observable (t : List Event) : List Event :=
  t.filter fun e => !e.isLog

/-- Stage `s` was invoked and produced its handle. -/
def succeededIn (t : List Event) (s : Stage) : Bool :=
  t.any fun e =>
    match e with
    | .stage s' .done => decide (s' = s)
    | _ => false

/-- Stage `s` was invoked and did not produce its handle. -/
def failedIn (t : List Event) (s : Stage) : Bool :=
  t.any fun e =>
    match e with
    | .stage s' (.failed _) => decide (s' = s)
    | .stage s' .refused => decide (s' = s)
    | _ => false

/-- Stage `s` was invoked. -/
def invokedIn (t : List Event) (s : Stage) : Bool :=
  t.any fun e =>
    match e with
    | .stage s' _ => decide (s' = s)
    | _ => false

/-- The goroutine that calls `srv.Start` was started. -/
def spawnedIn (t : List Event) : Bool :=
  t.any fun e =>
    match e with
    | .spawn => true
    | _ => false

/-- Whether an event is a call of `srv.Stop`. -/
def Event.isStop : Event → Bool
  | .stop _ _ => true
  | _ => false

/-- Number of calls of `srv.Stop` in a trace. -/
def stopCount (t : List Event) : Nat :=
  t.countP Event.isStop

/-- The bootstrap stages in source order. -/
def bootOrder : List Stage :=
  [.passphraseRead, .loggerBuild, .walletStore, .walletUnlock, .networkStore,
   .networkExistence, .networkConfigFetch, .connectivity, .networkVersion,
   .serviceStore, .initCheck, .auth, .forwarder, .nodeSelector, .apiClient,
   .serviceAssembly]

/-- The first `n` stages, each having produced its handle. -/
def okPrefix (n : Nat) : List Event :=
  (bootOrder.take n).map fun s => Event.stage s .done

/-- The message with which `RunService` wraps the cause when the stage fails;
`none` for the stages whose cause is returned as it is. -/
def Stage.purpose : Stage → Option String
  | .passphraseRead => none
  | .loggerBuild => some "could not build the service logger"
  | .walletStore => some "couldn't initialise wallets store"
  | .walletUnlock => some "could not retrieve the wallet"
  | .networkStore => some "couldn't initialise network store"
  | .networkExistence => some "couldn't verify the network existence"
  | .networkConfigFetch => some "couldn't retrieve the network configuration"
  | .connectivity => none
  | .networkVersion => none
  | .serviceStore => some "couldn't initialise service store"
  | .initCheck => some "couldn't verify service initialisation state"
  | .auth => some "couldn't initialise authentication"
  | .forwarder => some "couldn't initialise the node forwarder"
  | .nodeSelector => some "couldn't instantiate the node API"
  | .apiClient => some "couldn't instantiate the JSON-RPC API"
  | .serviceAssembly => none

/-- The error `RunService` returns when stage `k` ends with result `r`. -/
def RunService.stageError (f : RunServiceFlags) (k : Stage) : StageResult → Option GoError
  | .done => none
  | .refused =>
    if k = .networkExistence then some (GoError.networkDoesNotExist f.Network)
    else some ErrProgramIsNotInitialised
  | .failed e =>
    match k.purpose with
    | some msg => some (GoError.wrap msg e)
    | none => some e

/-- The three ways an execution of `RunService` can go, log lines apart: a stage
`k` does not produce its handle and its error is returned (`cancel` runs when it had
been deferred, from the service store on); the logger variable is nil at
`logger.Named`; or every stage succeeds and the process goes on as the lifecycle
program under the schedule. -/
inductive RunService.Shape (env : Env) (f : RunServiceFlags) :
    List Event → Outcome → Prop where
  | aborted (k : Stage) (r : StageResult) (t : List Event) :
    r ≠ .done →
    (r = .refused → k = .networkExistence ∨ k = .initCheck) →
    observable t
      = okPrefix (k.idx - 1) ++ [.stage k r] ++ (if 10 ≤ k.idx then [.cancel] else []) →
    RunService.Shape env f t (.returned (RunService.stageError f k r))
  | nilLogger (t : List Event) :
    f.LogFormat ≠ "json" → f.LogFormat ≠ "console" →
    observable t = okPrefix 1 →
    RunService.Shape env f t .panicked
  | live (logger : Logger) (cfg : Network) (srv : Service) (pre : List Event) :
    observable pre = okPrefix 16 →
    RunService.Shape env f
      (pre ++ (Sys.run env.Start env.Stop env.schedule
        (Sys.init (RunService.lifecycle logger cfg srv))).trace)
      (Sys.run env.Start env.Stop env.schedule
        (Sys.init (RunService.lifecycle logger cfg srv))).outcome

/-- The program never calls `srv.Stop`, whichever way it goes. -/
inductive Prog.NoStop : Prog → Prop where
  | ret : Prog.NoStop .ret
  | log {logger : String} {lvl : Level} {msg : String} {fields : List Field} {next : Prog} :
    Prog.NoStop next → Prog.NoStop (.log logger lvl msg fields next)
  | spawn {child next : Prog} :
    Prog.NoStop child → Prog.NoStop next → Prog.NoStop (.spawn child next)
  | start {srv : Service} {next : Option GoError → Prog} :
    (∀ e, Prog.NoStop (next e)) → Prog.NoStop (.start srv next)
  | cancel {next : Prog} : Prog.NoStop next → Prog.NoStop (.cancel next)
  | notify {sig : Signal} {next : Prog} : Prog.NoStop next → Prog.NoStop (.notify sig next)
  | select {onSignal : Option Signal → Prog} {onDone : Prog} :
    (∀ sig, Prog.NoStop (onSignal sig)) → Prog.NoStop onDone →
    Prog.NoStop (.select onSignal onDone)
  | close {next : Prog} : Prog.NoStop next → Prog.NoStop (.close next)

/-- The program calls `srv.Stop` exactly `n` times before it ends, whichever way it
goes, and the paths it starts never call it. -/
inductive Prog.StopsExactly : Nat → Prog → Prop where
  | ret : Prog.StopsExactly 0 .ret
  | log {n : Nat} {logger : String} {lvl : Level} {msg : String} {fields : List Field}
      {next : Prog} :
    Prog.StopsExactly n next → Prog.StopsExactly n (.log logger lvl msg fields next)
  | spawn {n : Nat} {child next : Prog} :
    Prog.NoStop child → Prog.StopsExactly n next → Prog.StopsExactly n (.spawn child next)
  | start {n : Nat} {srv : Service} {next : Option GoError → Prog} :
    (∀ e, Prog.StopsExactly n (next e)) → Prog.StopsExactly n (.start srv next)
  | stop {n : Nat} {srv : Service} {next : Option GoError → Prog} :
    (∀ e, Prog.StopsExactly n (next e)) → Prog.StopsExactly (n + 1) (.stop srv next)
  | cancel {n : Nat} {next : Prog} :
    Prog.StopsExactly n next → Prog.StopsExactly n (.cancel next)
  | notify {n : Nat} {sig : Signal} {next : Prog} :
    Prog.StopsExactly n next → Prog.StopsExactly n (.notify sig next)
  | select {n : Nat} {onSignal : Option Signal → Prog} {onDone : Prog} :
    (∀ sig, Prog.StopsExactly n (onSignal sig)) → Prog.StopsExactly n onDone →
    Prog.StopsExactly n (.select onSignal onDone)
  | close {n : Nat} {next : Prog} :
    Prog.StopsExactly n next → Prog.StopsExactly n (.close next)

/-! ## Sequences of calls on the interactor -/

/-- A call of one of the notification methods, with its arguments. -/
inductive Notification where
  | sessionBegan (traceID : String)
  | sessionEnded (traceID : String)
  | successfulTransaction (traceID txHash deserializedInputData tx : String) (sentAt : Time)
  | failedTransaction (traceID deserializedInputData tx : String) (err : Option GoError)
      (sentAt : Time)
  | successfulRequest (traceID message : String)
  | error (traceID t : String) (err : Option GoError)
  | log (traceID t msg : String)
  deriving DecidableEq, Repr

/-- A call of one of the request methods, with its arguments. -/
inductive Request where
  | connectionReview (traceID hostname : String)
  | walletSelection (traceID hostname : String) (availableWallets : List String)
  | passphrase (traceID wallet : String)
  | permissionsReview (traceID hostname wallet : String) (perms : List (String × String))
  | reviewForSending (traceID hostname wallet pubKey transaction : String) (receivedAt : Time)
  | reviewForSigning (traceID hostname wallet pubKey transaction : String) (receivedAt : Time)
  deriving DecidableEq, Repr

/-- What a request method returns. -/
inductive Response where
  | decision (d : String) (err : Option GoError)
  | selected (w : SelectedWallet) (err : Option GoError)
  | secret (p : String) (err : Option GoError)
  | review (approved : Bool) (err : Option GoError)
  deriving DecidableEq, Repr

namespace AlwaysAgreeInteractor

/-- The static configuration of the interactor. -/
def config (a : AlwaysAgreeInteractor) : String × String :=
  (a.ConfiguredWallet, a.WalletPassphrase)

/-- Perform one notification call. -/
def notify (a : AlwaysAgreeInteractor) : Notification → AlwaysAgreeInteractor
  | .sessionBegan traceID => (a.NotifyInteractionSessionBegan traceID).2
  | .sessionEnded traceID => a.NotifyInteractionSessionEnded traceID
  | .successfulTransaction traceID txHash d tx sentAt =>
    a.NotifySuccessfulTransaction traceID txHash d tx sentAt
  | .failedTransaction traceID d tx err sentAt =>
    a.NotifyFailedTransaction traceID d tx err sentAt
  | .successfulRequest traceID message => a.NotifySuccessfulRequest traceID message
  | .error traceID t err => a.NotifyError traceID t err
  | .log traceID t msg => a.Log traceID t msg

/-- Perform a sequence of notification calls, in order. -/
def notifyAll (a : AlwaysAgreeInteractor) (ns : List Notification) : AlwaysAgreeInteractor :=
  ns.foldl notify a

/-- Perform one request call. -/
def request (a : AlwaysAgreeInteractor) : Request → Response × AlwaysAgreeInteractor
  | .connectionReview traceID hostname =>
    let r := a.RequestWalletConnectionReview traceID hostname
    (.decision r.1.1 r.1.2, r.2)
  | .walletSelection traceID hostname availableWallets =>
    let r := a.RequestWalletSelection traceID hostname availableWallets
    (.selected r.1.1 r.1.2, r.2)
  | .passphrase traceID wallet =>
    let r := a.RequestPassphrase traceID wallet
    (.secret r.1.1 r.1.2, r.2)
  | .permissionsReview traceID hostname wallet perms =>
    let r := a.RequestPermissionsReview traceID hostname wallet perms
    (.review r.1.1 r.1.2, r.2)
  | .reviewForSending traceID hostname wallet pubKey transaction receivedAt =>
    let r := a.RequestTransactionReviewForSending traceID hostname wallet pubKey transaction
      receivedAt
    (.review r.1.1 r.1.2, r.2)
  | .reviewForSigning traceID hostname wallet pubKey transaction receivedAt =>
    let r := a.RequestTransactionReviewForSigning traceID hostname wallet pubKey transaction
      receivedAt
    (.review r.1.1 r.1.2, r.2)

end AlwaysAgreeInteractor

/-! ## Concrete inputs -/

/-- A network configuration with one gRPC host. -/
def sampleNetwork : Network :=
  { Host := "localhost", Port := 1789, TokenExpiry := 3600, API := { GRPC := { Hosts := ["n01"], Retries := 5 } } }

/-- Libraries in which every call succeeds; the service stops on an interrupt. -/
def sampleEnv : Env where
  ReadPassphraseFile := fun _ => .ok "secret"
  BuildStandardJSONLogger := fun _ => .ok { name := "", written := [] }
  BuildStandardConsoleLogger := fun _ => .ok { name := "", written := [] }
  walletsInitialiseStore := fun _ => .ok { id := 1 }
  GetWallet := fun _ _ _ => .ok ()
  netstoreInitialiseStore := fun _ => .ok { id := 2 }
  NetworkExists := fun _ _ => .ok true
  GetNetwork := fun _ _ => .ok sampleNetwork
  EnsureCanConnectGRPCNode := fun _ => none
  GetNetworkVersionThroughGRPC := fun _ => .ok "v0.70.0"
  coreversionGet := "v0.70.0"
  svcstoreInitialiseStore := fun _ => .ok { id := 3 }
  IsInitialised := fun _ => .ok true
  NewAuth := fun _ _ _ => .ok { id := 4 }
  NewForwarder := fun _ _ => .ok { id := 5 }
  BuildRoundRobinSelectorWithRetryingNodes := fun _ _ _ => .ok { id := 6 }
  ClientAPI := fun _ _ _ _ => .ok { id := 7 }
  NewService := fun _ _ _ _ _ _ _ => .ok { id := 8 }
  Start := fun _ => some ErrServerClosed
  Stop := fun _ => none
  schedule :=
    [.step .main false, .step .routine false, .step .main false, .step .main false,
     .step .main false, .deliver .SIGINT, .step .main false, .step .main false,
     .step .main false, .step .main false, .step .main false, .step .routine false,
     .step .main false, .step .main false]

/-- Root flags with a home directory. -/
def sampleRoot : RootFlags := { Home := "/home/vega" }

/-- Flags accepted by `Validate`, with the default log format. -/
def sampleFlags : RunServiceFlags :=
  { Network := "fairground", Wallet := "trader-1", PassphraseFile := "pass.txt",
    LogLevel := "info", LogFormat := "console" }

/-- Flags accepted by `Validate`, with a log format that is neither `json` nor
`console`. -/
def xmlFlags : RunServiceFlags :=
  { Network := "fairground", Wallet := "trader-1", PassphraseFile := "pass.txt",
    LogLevel := "info", LogFormat := "xml" }

/-- An interactor configured for the wallet `trader-1`. -/
def sampleInteractor : AlwaysAgreeInteractor :=
  { Logger := { name := "always-agree-interactor", written := [] },
    ConfiguredWallet := "trader-1", WalletPassphrase := "secret" }

/-- Libraries whose network store does not know the network. -/
def unknownNetworkEnv : Env :=
  { sampleEnv with NetworkExists := fun _ _ => .ok false }

/-- Libraries whose service store reports that the service is not initialised. -/
def uninitialisedEnv : Env :=
  { sampleEnv with IsInitialised := fun _ => .ok false }

/-- The cause reported by `unreadableEnv`. -/
def noSuchFile : GoError := GoError.sentinel "open pass.txt: no such file or directory"

/-- Libraries that cannot read the passphrase file. -/
def unreadableEnv : Env :=
  { sampleEnv with ReadPassphraseFile := fun _ => .error noSuchFile }

/-- Libraries that cannot reach the wallet store. -/
def brokenWalletStoreEnv : Env :=
  { sampleEnv with walletsInitialiseStore := fun _ => .error noSuchFile }

/-- The cause with which `srv.Start` fails in `portTakenEnv`. -/
def addressInUse : GoError :=
  GoError.sentinel "listen tcp 127.0.0.1:1789: bind: address already in use"

/-- Both triggers happen: the goroutine starts, `srv.Start` fails and the goroutine
cancels the context; the main path registers the signals, its `select` takes the
`ctx.Done()` case and `waitSig` closes `gracefulStop` and returns; then an interrupt
is delivered. -/
def portTakenEnv : Env :=
  { sampleEnv with
    Start := fun _ => some addressInUse
    schedule :=
      [.step .main false, .step .routine false, .step .routine false,
       .step .routine false, .step .routine false, .step .main false,
       .step .main false, .step .main false, .step .main false, .step .main false,
       .deliver .SIGINT, .step .main false, .step .main false, .step .main false] }

/-- Two interrupts: the first wakes `waitSig`, which logs it, cancels the context,
closes `gracefulStop` and returns; the second is delivered before the deferred stop
is called. -/
def doubleInterruptEnv : Env :=
  { sampleEnv with
    schedule :=
      [.step .main false, .step .routine false, .step .main false, .step .main false,
       .step .main false, .deliver .SIGINT, .step .main false, .step .main false,
       .step .main false, .step .main false, .deliver .SIGINT, .step .main false,
       .step .main false, .step .main false] }

/-- No signal and the service keeps serving: the main path stays in the `select`. -/
def servingEnv : Env :=
  { sampleEnv with
    schedule :=
      [.step .main false, .step .routine false, .step .main false, .step .main false,
       .step .main false, .step .main false, .step .main false] }

/-! ## Theorems: the interactor -/

theorem AlwaysAgreeInteractor.RequestWalletSelection.matched_iff (c : String) (L : List String) :
    AlwaysAgreeInteractor.RequestWalletSelection.matched c L = true ↔ c ∈ L := by
  induction L with
  | nil => simp [AlwaysAgreeInteractor.RequestWalletSelection.matched]
  | cons w ws ih =>
    unfold AlwaysAgreeInteractor.RequestWalletSelection.matched
    by_cases h : w = c
    · simp [h]
    · have h' : ¬ c = w := fun e => h e.symm
      simp [h, h', ih]

/-- C1: wallet selection decides by containment. If the configured wallet occurs in
the candidate list the call returns the configured wallet with its passphrase and no
error; if it does not occur the call returns the empty selection with
`ErrWalletSelectionDoesNotContainConfiguredOne`. -/
theorem RequestWalletSelection_containment (a : AlwaysAgreeInteractor)
    (traceID hostname : String) (L : List String) :
    (a.ConfiguredWallet ∈ L →
      (a.RequestWalletSelection traceID hostname L).1
        = ({ Wallet := a.ConfiguredWallet, Passphrase := a.WalletPassphrase }, none)) ∧
    (a.ConfiguredWallet ∉ L →
      (a.RequestWalletSelection traceID hostname L).1
        = ({ Wallet := "", Passphrase := "" },
            some ErrWalletSelectionDoesNotContainConfiguredOne)) := by
  constructor
  · intro h
    have hm := (AlwaysAgreeInteractor.RequestWalletSelection.matched_iff a.ConfiguredWallet L).2 h
    simp [AlwaysAgreeInteractor.RequestWalletSelection, AlwaysAgreeInteractor.logDebug,
      AlwaysAgreeInteractor.logInfo, hm]
  · intro h
    have hm : AlwaysAgreeInteractor.RequestWalletSelection.matched a.ConfiguredWallet L = false := by
      cases hb : AlwaysAgreeInteractor.RequestWalletSelection.matched a.ConfiguredWallet L with
      | false => rfl
      | true => exact absurd ((AlwaysAgreeInteractor.RequestWalletSelection.matched_iff _ _).1 hb) h
    simp [AlwaysAgreeInteractor.RequestWalletSelection, AlwaysAgreeInteractor.logDebug,
      AlwaysAgreeInteractor.logError, hm]

theorem RequestWalletSelection_containment_witness :
    ("trader-1" ∈ ["trader-1", "trader-2"] ∧
      (sampleInteractor.RequestWalletSelection "trace" "host" ["trader-1", "trader-2"]).1
        = ({ Wallet := "trader-1", Passphrase := "secret" }, none)) ∧
    ("trader-1" ∉ ["Trader-1", "trader-2"] ∧
      (sampleInteractor.RequestWalletSelection "trace" "host" ["Trader-1", "trader-2"]).1
        = ({ Wallet := "", Passphrase := "" },
            some ErrWalletSelectionDoesNotContainConfiguredOne)) :=
  ⟨⟨by decide,
    (RequestWalletSelection_containment sampleInteractor "trace" "host"
      ["trader-1", "trader-2"]).1 (by decide)⟩,
   ⟨by decide,
    (RequestWalletSelection_containment sampleInteractor "trace" "host"
      ["Trader-1", "trader-2"]).2 (by decide)⟩⟩

/-- C2: the four identity-checked operations share one exact-match guard. Each
succeeds exactly when the requested wallet equals the configured one; on a match
`RequestPassphrase` returns the configured passphrase and the three reviews return
`true`, with no error; on a mismatch each returns
`ErrRequestedWalletDoesNotMatchConfiguredOne` with the denying value. -/
theorem identity_checked_operations_guard (a : AlwaysAgreeInteractor)
    (w traceID hostname pubKey payload : String) (perms : List (String × String))
    (at_ : Time) :
    (((a.RequestPassphrase traceID w).1.2 = none ↔ w = a.ConfiguredWallet) ∧
     ((a.RequestPermissionsReview traceID hostname w perms).1.2 = none
        ↔ w = a.ConfiguredWallet) ∧
     ((a.RequestTransactionReviewForSending traceID hostname w pubKey payload at_).1.2 = none
        ↔ w = a.ConfiguredWallet) ∧
     ((a.RequestTransactionReviewForSigning traceID hostname w pubKey payload at_).1.2 = none
        ↔ w = a.ConfiguredWallet)) ∧
    (w = a.ConfiguredWallet →
      (a.RequestPassphrase traceID w).1 = (a.WalletPassphrase, none) ∧
      (a.RequestPermissionsReview traceID hostname w perms).1 = (true, none) ∧
      (a.RequestTransactionReviewForSending traceID hostname w pubKey payload at_).1
        = (true, none) ∧
      (a.RequestTransactionReviewForSigning traceID hostname w pubKey payload at_).1
        = (true, none)) ∧
    (w ≠ a.ConfiguredWallet →
      (a.RequestPassphrase traceID w).1
        = ("", some ErrRequestedWalletDoesNotMatchConfiguredOne) ∧
      (a.RequestPermissionsReview traceID hostname w perms).1
        = (false, some ErrRequestedWalletDoesNotMatchConfiguredOne) ∧
      (a.RequestTransactionReviewForSending traceID hostname w pubKey payload at_).1
        = (false, some ErrRequestedWalletDoesNotMatchConfiguredOne) ∧
      (a.RequestTransactionReviewForSigning traceID hostname w pubKey payload at_).1
        = (false, some ErrRequestedWalletDoesNotMatchConfiguredOne)) := by
  by_cases h : w = a.ConfiguredWallet
  · simp [AlwaysAgreeInteractor.RequestPassphrase,
      AlwaysAgreeInteractor.RequestPermissionsReview,
      AlwaysAgreeInteractor.RequestTransactionReviewForSending,
      AlwaysAgreeInteractor.RequestTransactionReviewForSigning,
      AlwaysAgreeInteractor.logDebug, AlwaysAgreeInteractor.logInfo,
      AlwaysAgreeInteractor.logError, h]
  · simp [AlwaysAgreeInteractor.RequestPassphrase,
      AlwaysAgreeInteractor.RequestPermissionsReview,
      AlwaysAgreeInteractor.RequestTransactionReviewForSending,
      AlwaysAgreeInteractor.RequestTransactionReviewForSigning,
      AlwaysAgreeInteractor.logDebug, AlwaysAgreeInteractor.logInfo,
      AlwaysAgreeInteractor.logError, h]

theorem identity_checked_operations_guard_witness :
    ("trader-2" ≠ sampleInteractor.ConfiguredWallet ∧
      (sampleInteractor.RequestPassphrase "trace" "trader-2").1
        = ("", some ErrRequestedWalletDoesNotMatchConfiguredOne)) ∧
    ("trader-1" = sampleInteractor.ConfiguredWallet ∧
      (sampleInteractor.RequestPassphrase "trace" "trader-1").1 = ("secret", none)) :=
  ⟨⟨by decide,
    ((identity_checked_operations_guard sampleInteractor "trader-2" "trace" "host" "key"
      "payload" [] 0).2.2 (by decide)).1⟩,
   ⟨by decide,
    ((identity_checked_operations_guard sampleInteractor "trader-1" "trace" "host" "key"
      "payload" [] 0).2.1 (by decide)).1⟩⟩

/-- C3: `RequestWalletConnectionReview` is a constant function. For every
interactor, trace id and hostname it returns `"APPROVED_ONLY_THIS_TIME"` with no
error, so two calls with different arguments return the same result. -/
theorem RequestWalletConnectionReview_constant (a a' : AlwaysAgreeInteractor)
    (traceID hostname traceID' hostname' : String) :
    (a.RequestWalletConnectionReview traceID hostname).1
      = ("APPROVED_ONLY_THIS_TIME", none) ∧
    (a.RequestWalletConnectionReview traceID hostname).1
      = (a'.RequestWalletConnectionReview traceID' hostname').1 := by
  simp [AlwaysAgreeInteractor.RequestWalletConnectionReview]

theorem AlwaysAgreeInteractor.config_notify (a : AlwaysAgreeInteractor) (n : Notification) :
    (a.notify n).config = a.config := by
  cases n <;> rfl

theorem AlwaysAgreeInteractor.config_notifyAll (ns : List Notification) :
    ∀ a : AlwaysAgreeInteractor, (a.notifyAll ns).config = a.config := by
  induction ns with
  | nil => intro a; rfl
  | cons n ns ih =>
    intro a
    have h := ih (a.notify n)
    rw [AlwaysAgreeInteractor.config_notify] at h
    simpa [AlwaysAgreeInteractor.notifyAll] using h

theorem AlwaysAgreeInteractor.request_of_config (a b : AlwaysAgreeInteractor)
    (h : a.config = b.config) (r : Request) : (a.request r).1 = (b.request r).1 := by
  have h1 : a.ConfiguredWallet = b.ConfiguredWallet := congrArg Prod.fst h
  have h2 : a.WalletPassphrase = b.WalletPassphrase := congrArg Prod.snd h
  cases r <;>
    simp [AlwaysAgreeInteractor.request, AlwaysAgreeInteractor.RequestWalletConnectionReview,
      AlwaysAgreeInteractor.RequestWalletSelection,
      AlwaysAgreeInteractor.RequestPassphrase,
      AlwaysAgreeInteractor.RequestPermissionsReview,
      AlwaysAgreeInteractor.RequestTransactionReviewForSending,
      AlwaysAgreeInteractor.RequestTransactionReviewForSigning,
      AlwaysAgreeInteractor.logDebug, AlwaysAgreeInteractor.logInfo,
      AlwaysAgreeInteractor.logError, h1, h2] <;>
    split <;> simp

theorem AlwaysAgreeInteractor.config_request (a : AlwaysAgreeInteractor) (r : Request) :
    (a.request r).2.config = a.config := by
  cases r <;>
    simp [AlwaysAgreeInteractor.request, AlwaysAgreeInteractor.RequestWalletConnectionReview,
      AlwaysAgreeInteractor.RequestWalletSelection,
      AlwaysAgreeInteractor.RequestPassphrase,
      AlwaysAgreeInteractor.RequestPermissionsReview,
      AlwaysAgreeInteractor.RequestTransactionReviewForSending,
      AlwaysAgreeInteractor.RequestTransactionReviewForSigning,
      AlwaysAgreeInteractor.logDebug, AlwaysAgreeInteractor.logInfo,
      AlwaysAgreeInteractor.logError, AlwaysAgreeInteractor.config] <;>
    split <;> simp

/-- C4: the policy is stateless. Every notification and every request leaves the
configuration (configured wallet, passphrase) unchanged; after any finite sequence of
notification calls, in any order and with any arguments, every request returns what
it would have returned without them; `NotifyInteractionSessionBegan` returns no
error. -/
theorem interactor_stateless (a : AlwaysAgreeInteractor) (ns : List Notification)
    (n : Notification) (r : Request) (traceID : String) :
    (a.notify n).config = a.config ∧
    (a.request r).2.config = a.config ∧
    (a.notifyAll ns).config = a.config ∧
    ((a.notifyAll ns).request r).1 = (a.request r).1 ∧
    (a.NotifyInteractionSessionBegan traceID).1 = none :=
  ⟨AlwaysAgreeInteractor.config_notify a n, AlwaysAgreeInteractor.config_request a r,
   AlwaysAgreeInteractor.config_notifyAll ns a,
   AlwaysAgreeInteractor.request_of_config _ _
     (AlwaysAgreeInteractor.config_notifyAll ns a) r,
   rfl⟩

/-! ## Theorems: the flags -/

theorem len_eq_zero_iff (s : String) : len s = 0 ↔ s = "" := by
  cases s with
  | mk cs =>
    show String.utf8ByteSize ⟨cs⟩ = 0 ↔ (⟨cs⟩ : String) = ""
    rw [String.utf8ByteSize_mk, String.utf8Len_eq_zero]
    constructor
    · intro h; subst h; rfl
    · intro h; exact congrArg String.data h

/-- C5: `Validate` accepts exactly the flag sets whose three required flags are
present. It returns no error if and only if `Network`, `Wallet` and `PassphraseFile`
are all non-empty; otherwise it returns the must-be-specified error naming the first
empty flag in the order network, wallet, passphrase-file. `LogLevel` and `LogFormat`
never influence the result, and `RunE` does not call its handler when `Validate`
fails. -/
theorem Validate_accepts_iff (f : RunServiceFlags)
    (handler : RootFlags → RunServiceFlags → List Event × Outcome) (rf : RootFlags)
    (logLevel logFormat : String) :
    (f.Validate = none ↔ f.Network ≠ "" ∧ f.Wallet ≠ "" ∧ f.PassphraseFile ≠ "") ∧
    (f.Network = "" → f.Validate = some (GoError.mustBeSpecified "network")) ∧
    (f.Network ≠ "" → f.Wallet = "" →
      f.Validate = some (GoError.mustBeSpecified "wallet")) ∧
    (f.Network ≠ "" → f.Wallet ≠ "" → f.PassphraseFile = "" →
      f.Validate = some (GoError.mustBeSpecified "passphrase-file")) ∧
    ({ f with LogLevel := logLevel, LogFormat := logFormat }.Validate = f.Validate) ∧
    (∀ err, f.Validate = some err →
      BuildCmdRunService.RunE handler rf f = ([], Outcome.returned (some err))) ∧
    (f.Validate = none →
      BuildCmdRunService.RunE handler rf f
        = (Event.handlerCalled :: (handler rf f).1, (handler rf f).2)) := by
  have hv : f.Validate =
      if f.Network = "" then some (GoError.mustBeSpecified "network")
      else if f.Wallet = "" then some (GoError.mustBeSpecified "wallet")
      else if f.PassphraseFile = "" then some (GoError.mustBeSpecified "passphrase-file")
      else none := by
    unfold RunServiceFlags.Validate
    simp only [beq_iff_eq, len_eq_zero_iff]
  refine ⟨?_, ?_, ?_, ?_, ?_, ?_, ?_⟩
  · rw [hv]
    by_cases h1 : f.Network = "" <;> by_cases h2 : f.Wallet = "" <;>
      by_cases h3 : f.PassphraseFile = "" <;> simp [h1, h2, h3]
  · intro h1; rw [hv]; simp [h1]
  · intro h1 h2; rw [hv]; simp [h1, h2]
  · intro h1 h2 h3; rw [hv]; simp [h1, h2, h3]
  · rfl
  · intro err h; simp [BuildCmdRunService.RunE, h]
  · intro h
    simp only [BuildCmdRunService.RunE, h]
    rcases hh : handler rf f with ⟨t, o⟩
    cases o with
    | returned e => cases e <;> rfl
    | panicked => rfl
    | running => rfl

theorem Validate_accepts_iff_witness :
    ({ sampleFlags with Wallet := "" }.Network ≠ "" ∧ { sampleFlags with Wallet := "" }.Wallet = "") ∧
    { sampleFlags with Wallet := "" }.Validate = some (GoError.mustBeSpecified "wallet") :=
  ⟨⟨by decide, by decide⟩,
   (Validate_accepts_iff { sampleFlags with Wallet := "" } (RunService sampleEnv) sampleRoot
      "info" "console").2.2.1 (by decide) (by decide)⟩

/-! ## Theorems: executions of `RunService` -/

theorem Run.bind_eq {α β : Type} (m : Run α) (f : α → Run β) : (m >>= f) = Run.bind m f := rfl

theorem Run.pure_eq {α : Type} (a : α) : (pure a : Run α) = Run.cont [] a := rfl

theorem Run.bind_cont {α β : Type} (t : List Event) (a : α) (f : α → Run β) :
    Run.bind (Run.cont t a) f = Run.after t (f a) := rfl

theorem Run.bind_halt {α β : Type} (t : List Event) (o : Outcome) (f : α → Run β) :
    Run.bind (Run.halt t o) f = Run.halt t o := rfl

theorem Run.after_cont {α : Type} (t t' : List Event) (a : α) :
    Run.after t (Run.cont t' a) = Run.cont (t ++ t') a := rfl

theorem Run.after_halt {α : Type} (t t' : List Event) (o : Outcome) :
    (Run.after t (Run.halt t' o) : Run α) = Run.halt (t ++ t') o := rfl

theorem Run.after_after {α : Type} (t t' : List Event) (m : Run α) :
    Run.after t (Run.after t' m) = Run.after (t ++ t') m := by
  cases m <;> simp [Run.after]

theorem Run.after_done {α : Type} (t t' : List Event) (o : Outcome) :
    (Run.after t (Run.done t' o) : Run α) = Run.done (t ++ t') o := rfl

theorem Run.exec_after (t : List Event) (m : Run Unit) :
    Run.exec (Run.after t m) = (t ++ (Run.exec m).1, (Run.exec m).2) := by
  cases m <;> rfl

theorem observable_append (a b : List Event) :
    observable (a ++ b) = observable a ++ observable b := by
  simp [observable]

set_option maxHeartbeats 2000000 in
theorem RunService.afterCancelDeferred_cases (env : Env) (rf : RootFlags)
    (f : RunServiceFlags) (passphrase : String) (logger : Logger) (walletStore : WalletStore)
    (handler : WalletHandler) (cfg : Network) :
    (∃ k r t, 10 ≤ k.idx ∧ r ≠ StageResult.done ∧
      (r = StageResult.refused → k = Stage.initCheck) ∧
      RunService.afterCancelDeferred env rf f passphrase logger walletStore handler cfg
        = Run.halt t (Outcome.returned (RunService.stageError f k r)) ∧
      observable t = (okPrefix (k.idx - 1)).drop 9 ++ [Event.stage k r]) ∨
    (∃ srv pre,
      RunService.afterCancelDeferred env rf f passphrase logger walletStore handler cfg
        = Run.done
            (pre ++ (Sys.run env.Start env.Stop env.schedule
              (Sys.init (RunService.lifecycle logger cfg srv))).trace)
            (Sys.run env.Start env.Stop env.schedule
              (Sys.init (RunService.lifecycle logger cfg srv))).outcome ∧
      observable pre = (okPrefix 16).drop 9) := by
  generalize hR : RunService.afterCancelDeferred env rf f passphrase logger
        walletStore handler cfg = R
  unfold RunService.afterCancelDeferred at hR
  simp only [Run.bind_eq, Run.pure_eq] at hR
  rcases h1 : env.svcstoreInitialiseStore (paths.New rf.Home) with e | svcStore
  · simp only [h1, Run.bind_cont, Run.bind_halt, Run.after_cont, Run.after_halt, Run.after_after,
      Run.invoke, Run.query, Run.ret, Run.emit, Logger.debugE, Logger.errorE] at hR
    subst hR
    exact Or.inl ⟨.serviceStore, .failed e, _, by decide, by simp, by simp, rfl, rfl⟩
  simp only [h1, Run.bind_cont, Run.bind_halt, Run.after_cont, Run.after_halt, Run.after_after,
      Run.invoke, Run.query, Run.ret, Run.emit, Logger.debugE, Logger.errorE] at hR
  rcases h2 : env.IsInitialised svcStore with e | isInit
  · simp only [h2, Run.bind_cont, Run.bind_halt, Run.after_cont, Run.after_halt, Run.after_after,
      Run.invoke, Run.query, Run.ret, Run.emit, Logger.debugE, Logger.errorE] at hR
    subst hR
    exact Or.inl ⟨.initCheck, .failed e, _, by decide, by simp, by simp, rfl, rfl⟩
  cases isInit
  · simp only [h2, Run.bind_cont, Run.bind_halt, Run.after_cont, Run.after_halt, Run.after_after,
      Run.invoke, Run.query, Run.ret, Run.emit, Logger.debugE, Logger.errorE, Bool.not_false, if_true] at hR
    subst hR
    exact Or.inl ⟨.initCheck, .refused, _, by decide, by simp, by simp, rfl, rfl⟩
  simp only [h2, Run.bind_cont, Run.bind_halt, Run.after_cont, Run.after_halt, Run.after_after,
      Run.invoke, Run.query, Run.ret, Run.emit, Logger.debugE, Logger.errorE, Bool.not_true, Bool.false_eq_true, if_false] at hR
  rcases h3 : env.NewAuth (logger.Named "auth") svcStore cfg.TokenExpiry with e | auth
  · simp only [h3, Run.bind_cont, Run.bind_halt, Run.after_cont, Run.after_halt, Run.after_after,
      Run.invoke, Run.query, Run.ret, Run.emit, Logger.debugE, Logger.errorE] at hR
    subst hR
    exact Or.inl ⟨.auth, .failed e, _, by decide, by simp, by simp, rfl, rfl⟩
  simp only [h3, Run.bind_cont, Run.bind_halt, Run.after_cont, Run.after_halt, Run.after_after,
      Run.invoke, Run.query, Run.ret, Run.emit, Logger.debugE, Logger.errorE] at hR
  rcases h4 : env.NewForwarder (logger.Named "forwarder") cfg.API.GRPC with e | forwarder
  · simp only [h4, Run.bind_cont, Run.bind_halt, Run.after_cont, Run.after_halt, Run.after_after,
      Run.invoke, Run.query, Run.ret, Run.emit, Logger.debugE, Logger.errorE] at hR
    subst hR
    exact Or.inl ⟨.forwarder, .failed e, _, by decide, by simp, by simp, rfl, rfl⟩
  simp only [h4, Run.bind_cont, Run.bind_halt, Run.after_cont, Run.after_halt, Run.after_after,
      Run.invoke, Run.query, Run.ret, Run.emit, Logger.debugE, Logger.errorE] at hR
  rcases h5 : env.BuildRoundRobinSelectorWithRetryingNodes (logger.Named "json-rpc")
      cfg.API.GRPC.Hosts cfg.API.GRPC.Retries with e | nodeSelector
  · simp only [h5, Run.bind_cont, Run.bind_halt, Run.after_cont, Run.after_halt, Run.after_after,
      Run.invoke, Run.query, Run.ret, Run.emit, Logger.debugE, Logger.errorE] at hR
    subst hR
    exact Or.inl ⟨.nodeSelector, .failed e, _, by decide, by simp, by simp, rfl, rfl⟩
  simp only [h5, Run.bind_cont, Run.bind_halt, Run.after_cont, Run.after_halt, Run.after_after,
      Run.invoke, Run.query, Run.ret, Run.emit, Logger.debugE, Logger.errorE] at hR
  rcases h6 : env.ClientAPI (logger.Named "json-rpc") walletStore
      { Logger := logger.Named "always-agree-interactor", ConfiguredWallet := f.Wallet,
        WalletPassphrase := passphrase } nodeSelector with e | apiV2
  · simp only [h6, Run.bind_cont, Run.bind_halt, Run.after_cont, Run.after_halt, Run.after_after,
      Run.invoke, Run.query, Run.ret, Run.emit, Logger.debugE, Logger.errorE] at hR
    subst hR
    exact Or.inl ⟨.apiClient, .failed e, _, by decide, by simp, by simp, rfl, rfl⟩
  simp only [h6, Run.bind_cont, Run.bind_halt, Run.after_cont, Run.after_halt, Run.after_after,
      Run.invoke, Run.query, Run.ret, Run.emit, Logger.debugE, Logger.errorE] at hR
  rcases h7 : env.NewService (logger.Named "api") cfg apiV2 handler auth forwarder
      ConsentPolicy.automatic with e | srv
  · simp only [h7, Run.bind_cont, Run.bind_halt, Run.after_cont, Run.after_halt, Run.after_after,
      Run.invoke, Run.query, Run.ret, Run.emit, Logger.debugE, Logger.errorE] at hR
    subst hR
    exact Or.inl ⟨.serviceAssembly, .failed e, _, by decide, by simp, by simp, rfl, rfl⟩
  simp only [h7, Run.bind_cont, Run.bind_halt, Run.after_cont, Run.after_halt, Run.after_after,
      Run.invoke, Run.query, Run.ret, Run.emit, Logger.debugE, Logger.errorE] at hR
  simp only [RunService.live, Run.after_done] at hR
  subst hR
  exact Or.inr ⟨srv, _, rfl, rfl⟩

theorem RunService.selectLogger_cases (env : Env) (f : RunServiceFlags) :
    (∃ e, RunService.selectLogger env f
        = Run.halt [Event.stage Stage.loggerBuild (StageResult.failed e)]
            (Outcome.returned (some (GoError.wrap "could not build the service logger" e)))) ∨
    (∃ l, RunService.selectLogger env f
        = Run.cont [Event.stage Stage.loggerBuild StageResult.done] (some l)) ∨
    (f.LogFormat ≠ "json" ∧ f.LogFormat ≠ "console" ∧
      RunService.selectLogger env f = Run.cont [] none) := by
  unfold RunService.selectLogger
  simp only [Run.bind_eq, Run.pure_eq, beq_iff_eq]
  by_cases hj : f.LogFormat = "json"
  · rcases h : env.BuildStandardJSONLogger f.LogLevel with e | l
    · exact Or.inl ⟨e, by simp [hj, h, Run.invoke, Run.bind, Run.ret, Run.after]⟩
    · exact Or.inr (Or.inl ⟨l, by simp [hj, h, Run.invoke, Run.bind, Run.after]⟩)
  · by_cases hc : f.LogFormat = "console"
    · rcases h : env.BuildStandardConsoleLogger f.LogLevel with e | l
      · exact Or.inl ⟨e, by simp [hj, hc, h, Run.invoke, Run.bind, Run.ret, Run.after]⟩
      · exact Or.inr (Or.inl ⟨l, by simp [hj, hc, h, Run.invoke, Run.bind, Run.after]⟩)
    · exact Or.inr (Or.inr ⟨hj, hc, by simp [hj, hc]⟩)

theorem okPrefix_nine_append_drop (k : Stage) (h : 10 ≤ k.idx) :
    okPrefix 9 ++ (okPrefix (k.idx - 1)).drop 9 = okPrefix (k.idx - 1) := by
  cases k <;> first | rfl | (exact absurd h (by decide))

set_option maxHeartbeats 2000000 in
theorem RunService_shape (env : Env) (rf : RootFlags) (f : RunServiceFlags) :
    RunService.Shape env f (RunService env rf f).1 (RunService env rf f).2 := by
  generalize hR : RunService env rf f = R
  unfold RunService RunService.body at hR
  simp only [Run.bind_eq, Run.pure_eq] at hR
  rcases h1 : env.ReadPassphraseFile f.PassphraseFile with e | passphrase
  · simp only [h1, Run.bind_cont, Run.bind_halt, Run.after_cont, Run.after_halt, Run.after_after,
      Run.invoke, Run.query, Run.check, Run.ret, Run.panic, Run.emit, Logger.debugE, Logger.warnE, Run.exec] at hR
    subst hR
    exact RunService.Shape.aborted .passphraseRead (.failed e) _ (by simp) (by simp) rfl
  simp only [h1, Run.bind_cont, Run.bind_halt, Run.after_cont, Run.after_halt, Run.after_after,
      Run.invoke, Run.query, Run.check, Run.ret, Run.panic, Run.emit, Logger.debugE, Logger.warnE] at hR
  rcases RunService.selectLogger_cases env f with ⟨e, h2⟩ | ⟨l, h2⟩ | ⟨hj, hc, h2⟩
  · simp only [h2, Run.bind_cont, Run.bind_halt, Run.after_cont, Run.after_halt, Run.after_after,
      Run.invoke, Run.query, Run.check, Run.ret, Run.panic, Run.emit, Logger.debugE, Logger.warnE, Run.exec] at hR
    subst hR
    exact RunService.Shape.aborted .loggerBuild (.failed e) _ (by simp) (by simp) rfl
  · simp only [h2, Run.bind_cont, Run.bind_halt, Run.after_cont, Run.after_halt, Run.after_after,
      Run.invoke, Run.query, Run.check, Run.ret, Run.panic, Run.emit, Logger.debugE, Logger.warnE] at hR
    rcases h3 : env.walletsInitialiseStore rf.Home with e | walletStore
    · simp only [h3, Run.bind_cont, Run.bind_halt, Run.after_cont, Run.after_halt, Run.after_after,
        Run.invoke, Run.query, Run.check, Run.ret, Run.panic, Run.emit, Logger.debugE, Logger.warnE, Run.exec] at hR
      subst hR
      exact RunService.Shape.aborted .walletStore (.failed e) _ (by simp) (by simp) rfl
    simp only [h3, Run.bind_cont, Run.bind_halt, Run.after_cont, Run.after_halt, Run.after_after,
        Run.invoke, Run.query, Run.check, Run.ret, Run.panic, Run.emit, Logger.debugE, Logger.warnE] at hR
    rcases h4 : env.GetWallet walletStore f.Wallet passphrase with e | _
    · simp only [h4, Run.bind_cont, Run.bind_halt, Run.after_cont, Run.after_halt, Run.after_after,
        Run.invoke, Run.query, Run.check, Run.ret, Run.panic, Run.emit, Logger.debugE, Logger.warnE, Run.exec] at hR
      subst hR
      exact RunService.Shape.aborted .walletUnlock (.failed e) _ (by simp) (by simp) rfl
    simp only [h4, Run.bind_cont, Run.bind_halt, Run.after_cont, Run.after_halt, Run.after_after,
        Run.invoke, Run.query, Run.check, Run.ret, Run.panic, Run.emit, Logger.debugE, Logger.warnE] at hR
    rcases h5 : env.netstoreInitialiseStore (paths.New rf.Home) with e | netStore
    · simp only [h5, Run.bind_cont, Run.bind_halt, Run.after_cont, Run.after_halt, Run.after_after,
        Run.invoke, Run.query, Run.check, Run.ret, Run.panic, Run.emit, Logger.debugE, Logger.warnE, Run.exec] at hR
      subst hR
      exact RunService.Shape.aborted .networkStore (.failed e) _ (by simp) (by simp) rfl
    simp only [h5, Run.bind_cont, Run.bind_halt, Run.after_cont, Run.after_halt, Run.after_after,
        Run.invoke, Run.query, Run.check, Run.ret, Run.panic, Run.emit, Logger.debugE, Logger.warnE] at hR
    rcases h6 : env.NetworkExists netStore f.Network with e | exists_
    · simp only [h6, Run.bind_cont, Run.bind_halt, Run.after_cont, Run.after_halt, Run.after_after,
      Run.invoke, Run.query, Run.check, Run.ret, Run.panic, Run.emit, Logger.debugE, Logger.warnE, Run.exec] at hR
      subst hR
      exact RunService.Shape.aborted .networkExistence (.failed e) _ (by simp) (by simp) rfl
    cases exists_
    · simp only [h6, Run.bind_cont, Run.bind_halt, Run.after_cont, Run.after_halt, Run.after_after,
      Run.invoke, Run.query, Run.check, Run.ret, Run.panic, Run.emit, Logger.debugE, Logger.warnE, Run.exec, Bool.not_false, if_true] at hR
      subst hR
      exact RunService.Shape.aborted .networkExistence .refused _ (by simp) (by simp) rfl
    simp only [h6, Run.bind_cont, Run.bind_halt, Run.after_cont, Run.after_halt, Run.after_after,
      Run.invoke, Run.query, Run.check, Run.ret, Run.panic, Run.emit, Logger.debugE, Logger.warnE, Bool.not_true, Bool.false_eq_true, if_false] at hR
    rcases h7 : env.GetNetwork netStore f.Network with e | cfg
    · simp only [h7, Run.bind_cont, Run.bind_halt, Run.after_cont, Run.after_halt, Run.after_after,
        Run.invoke, Run.query, Run.check, Run.ret, Run.panic, Run.emit, Logger.debugE, Logger.warnE, Run.exec] at hR
      subst hR
      exact RunService.Shape.aborted .networkConfigFetch (.failed e) _ (by simp) (by simp) rfl
    simp only [h7, Run.bind_cont, Run.bind_halt, Run.after_cont, Run.after_halt, Run.after_after,
        Run.invoke, Run.query, Run.check, Run.ret, Run.panic, Run.emit, Logger.debugE, Logger.warnE] at hR
    rcases h8 : env.EnsureCanConnectGRPCNode cfg with _ | e
    swap
    · simp only [h8, Run.bind_cont, Run.bind_halt, Run.after_cont, Run.after_halt, Run.after_after,
      Run.invoke, Run.query, Run.check, Run.ret, Run.panic, Run.emit, Logger.debugE, Logger.warnE, Run.exec] at hR
      subst hR
      exact RunService.Shape.aborted .connectivity (.failed e) _ (by simp) (by simp) rfl
    simp only [h8, Run.bind_cont, Run.bind_halt, Run.after_cont, Run.after_halt, Run.after_after,
      Run.invoke, Run.query, Run.check, Run.ret, Run.panic, Run.emit, Logger.debugE, Logger.warnE] at hR
    rcases h9 : env.GetNetworkVersionThroughGRPC cfg.API.GRPC.Hosts with e | networkVersion
    · simp only [h9, Run.bind_cont, Run.bind_halt, Run.after_cont, Run.after_halt, Run.after_after,
        Run.invoke, Run.query, Run.check, Run.ret, Run.panic, Run.emit, Logger.debugE, Logger.warnE, Run.exec] at hR
      subst hR
      exact RunService.Shape.aborted .networkVersion (.failed e) _ (by simp) (by simp) rfl
    simp only [h9, Run.bind_cont, Run.bind_halt, Run.after_cont, Run.after_halt, Run.after_after,
        Run.invoke, Run.query, Run.check, Run.ret, Run.panic, Run.emit, Logger.debugE, Logger.warnE] at hR
    have key : ∀ T : List Event, observable T = okPrefix 9 →
        RunService.Shape env f
          (Run.exec (Run.after T (Run.followedBy [Event.cancel]
            (RunService.afterCancelDeferred env rf f passphrase (l.Named "service")
              walletStore (wallets.NewHandler walletStore) cfg)))).1
          (Run.exec (Run.after T (Run.followedBy [Event.cancel]
            (RunService.afterCancelDeferred env rf f passphrase (l.Named "service")
              walletStore (wallets.NewHandler walletStore) cfg)))).2 := by
      intro T hT
      rcases RunService.afterCancelDeferred_cases env rf f passphrase (l.Named "service")
          walletStore (wallets.NewHandler walletStore) cfg with
        ⟨k, r, t, h10, hne, href, hX, hobs⟩ | ⟨srv, pre, hX, hobs⟩
      · rw [hX]
        refine RunService.Shape.aborted k r _ hne (fun h => Or.inr (href h)) ?_
        have hk := okPrefix_nine_append_drop k h10
        show observable (T ++ (t ++ [Event.cancel])) = _
        rw [observable_append, observable_append, hobs, hT, if_pos h10]
        conv_rhs => rw [← hk]
        simp [List.append_assoc, observable, Event.isLog]
      · rw [hX]
        show RunService.Shape env f (T ++ (pre ++ _)) _
        rw [← List.append_assoc]
        refine RunService.Shape.live _ cfg srv _ ?_
        rw [observable_append, hobs, hT]
        rfl
    by_cases hv : (networkVersion != env.coreversionGet) = true
    · rw [if_pos hv] at hR
      simp only [Run.withDefer, Run.trace, Run.after_after] at hR
      subst hR
      exact key _ rfl
    · rw [if_neg hv] at hR
      simp only [Run.withDefer, Run.trace, Run.after_after] at hR
      subst hR
      exact key _ rfl
  · simp only [h2, Run.bind_cont, Run.bind_halt, Run.after_cont, Run.after_halt,
      Run.after_after, Run.panic, Run.exec] at hR
    subst hR
    exact RunService.Shape.nilLogger _ hj hc rfl

/-! ## Theorems: observations -/

theorem succeededIn_observable (t : List Event) (s : Stage) :
    succeededIn (observable t) s = succeededIn t s := by
  induction t with
  | nil => rfl
  | cons e t ih =>
    cases e <;> simp_all [succeededIn, observable, Event.isLog, List.filter]

theorem failedIn_observable (t : List Event) (s : Stage) :
    failedIn (observable t) s = failedIn t s := by
  induction t with
  | nil => rfl
  | cons e t ih =>
    cases e <;> simp_all [failedIn, observable, Event.isLog, List.filter]

theorem invokedIn_observable (t : List Event) (s : Stage) :
    invokedIn (observable t) s = invokedIn t s := by
  induction t with
  | nil => rfl
  | cons e t ih =>
    cases e <;> simp_all [invokedIn, observable, Event.isLog, List.filter]

theorem spawnedIn_observable (t : List Event) :
    spawnedIn (observable t) = spawnedIn t := by
  induction t with
  | nil => rfl
  | cons e t ih =>
    cases e <;> simp_all [spawnedIn, observable, Event.isLog, List.filter]

theorem stopCount_observable (t : List Event) :
    stopCount (observable t) = stopCount t := by
  induction t with
  | nil => rfl
  | cons e t ih =>
    cases e <;> simp_all [stopCount, observable, Event.isLog, Event.isStop, List.filter]

theorem stage_mem_observable (t : List Event) (k : Stage) (r : StageResult) :
    Event.stage k r ∈ observable t ↔ Event.stage k r ∈ t := by
  simp [observable, Event.isLog]

theorem failedIn_iff (t : List Event) (k : Stage) :
    failedIn t k = true ↔ ∃ r, r ≠ StageResult.done ∧ Event.stage k r ∈ t := by
  induction t with
  | nil => simp [failedIn]
  | cons e t ih =>
    have hc : failedIn (e :: t) k = (failedIn [e] k || failedIn t k) := by
      simp [failedIn]
    rw [hc, Bool.or_eq_true, ih]
    constructor
    · rintro (h | ⟨r, hr, hm⟩)
      · cases e with
        | stage s' r' =>
          cases r' with
          | done => simp [failedIn] at h
          | refused =>
            have : s' = k := by simpa [failedIn] using h
            subst this
            exact ⟨.refused, by simp, by simp⟩
          | failed c =>
            have : s' = k := by simpa [failedIn] using h
            subst this
            exact ⟨.failed c, by simp, by simp⟩
        | _ => simp [failedIn] at h
      · exact ⟨r, hr, List.mem_cons_of_mem _ hm⟩
    · rintro ⟨r, hr, hm⟩
      rcases List.mem_cons.1 hm with h | h
      · subst h
        left
        cases r with
        | done => exact absurd rfl hr
        | refused => simp [failedIn]
        | failed c => simp [failedIn]
      · exact Or.inr ⟨r, hr, h⟩

theorem mem_okPrefix (n : Nat) (e : Event) (h : e ∈ okPrefix n) :
    ∃ s, e = Event.stage s StageResult.done := by
  simp only [okPrefix, List.mem_map] at h
  obtain ⟨s, _, hs⟩ := h
  exact ⟨s, hs.symm⟩

/-- No event of the trace is a stage event. -/
theorem Prog.step_emits_no_stage (startResult stopResult : Service → Option GoError)
    (preferDone : Bool) (p p' : Prog) (s s' : Sys)
    (h : p.step startResult stopResult preferDone s = some (p', s'))
    (hs : ∀ k r, Event.stage k r ∉ s.trace) : ∀ k r, Event.stage k r ∉ s'.trace := by
  cases p with
  | ret => simp [Prog.step] at h
  | select onSignal onDone =>
    simp only [Prog.step] at h
    split at h <;> (try split at h) <;>
      first
      | (simp at h; done)
      | (simp only [Option.some.injEq, Prod.mk.injEq] at h
         obtain ⟨_, h2⟩ := h
         subst h2
         first
         | exact hs
         | simpa [Sys.emit] using hs)
  | _ =>
    simp only [Prog.step, Option.some.injEq, Prod.mk.injEq] at h
    obtain ⟨_, h2⟩ := h
    subst h2
    simpa [Sys.emit] using hs

theorem Sys.step_noStage (startResult stopResult : Service → Option GoError) (l : Label)
    (s : Sys) (hs : ∀ k r, Event.stage k r ∉ s.trace) :
    ∀ k r, Event.stage k r ∉ (s.step startResult stopResult l).trace := by
  unfold Sys.step
  split
  · exact hs
  · cases l with
    | deliver sig =>
      simp only [Sys.deliver]
      split
      · split
        · simpa using hs
        · split <;> simpa using hs
      · exact hs
    | step who preferDone =>
      cases who with
      | main =>
        simp only
        cases h : s.main.step startResult stopResult preferDone s with
        | none => exact hs
        | some ps =>
          obtain ⟨p, s'⟩ := ps
          exact Prog.step_emits_no_stage startResult stopResult preferDone s.main p s s' h hs
      | routine =>
        simp only
        cases hr : s.routine with
        | none => exact hs
        | some r =>
          simp only
          cases h : r.step startResult stopResult preferDone s with
          | none => exact hs
          | some ps =>
            obtain ⟨p, s'⟩ := ps
            exact Prog.step_emits_no_stage startResult stopResult preferDone r p s s' h hs

theorem Sys.run_noStage (startResult stopResult : Service → Option GoError)
    (schedule : List Label) :
    ∀ s : Sys, (∀ k r, Event.stage k r ∉ s.trace) →
      ∀ k r, Event.stage k r ∉ (s.run startResult stopResult schedule).trace := by
  induction schedule with
  | nil => intro s hs; exact hs
  | cons l ls ih =>
    intro s hs
    exact ih _ (Sys.step_noStage startResult stopResult l s hs)

theorem invokedIn_okPrefix_pred (k j : Stage) :
    invokedIn (okPrefix (k.idx - 1)) j = decide (j.idx < k.idx) := by
  cases k <;> cases j <;> rfl

theorem succeededIn_okPrefix_pred (k j : Stage) :
    succeededIn (okPrefix (k.idx - 1)) j = decide (j.idx < k.idx) := by
  cases k <;> cases j <;> rfl

theorem spawnedIn_okPrefix_pred (k : Stage) : spawnedIn (okPrefix (k.idx - 1)) = false := by
  cases k <;> rfl

theorem stopCount_okPrefix_pred (k : Stage) : stopCount (okPrefix (k.idx - 1)) = 0 := by
  cases k <;> rfl

theorem Stage.idx_injective (k j : Stage) (h : k.idx = j.idx) : k = j := by
  cases k <;> cases j <;> first | rfl | (exact absurd h (by decide))

theorem GoError.wrap_ne (msg : String) (e : GoError) : GoError.wrap msg e ≠ e := by
  induction e generalizing msg with
  | wrap m c ih =>
    intro h
    injection h with h1 h2
    exact ih m h2
  | _ => intro h; cases h

/-- If a stage ended without producing its handle, the execution is the one
aborted at that stage. -/
theorem RunService.Shape.of_failed {env : Env} {f : RunServiceFlags} {t : List Event}
    {o : Outcome} (hs : RunService.Shape env f t o) (k : Stage) (r : StageResult)
    (hr : r ≠ StageResult.done) (hm : Event.stage k r ∈ t) :
    o = Outcome.returned (RunService.stageError f k r) ∧
    observable t
      = okPrefix (k.idx - 1) ++ [Event.stage k r] ++
          (if 10 ≤ k.idx then [Event.cancel] else []) := by
  have hm' := (stage_mem_observable t k r).2 hm
  cases hs with
  | aborted k' r' _ hr' href hobs =>
    rw [hobs] at hm'
    simp only [List.mem_append, List.mem_singleton] at hm'
    rcases hm' with (h | h) | h
    · obtain ⟨s, hs⟩ := mem_okPrefix _ _ h
      injection hs with _ h2
      exact absurd h2 hr
    · injection h with h1 h2
      subst h1; subst h2
      exact ⟨rfl, hobs⟩
    · split at h <;> simp at h
  | nilLogger _ _ _ hobs =>
    rw [hobs] at hm'
    obtain ⟨s, hs⟩ := mem_okPrefix _ _ hm'
    injection hs with _ h2
    exact absurd h2 hr
  | live logger cfg srv pre hobs =>
    rw [observable_append, hobs] at hm'
    rcases List.mem_append.1 hm' with h | h
    · obtain ⟨s, hs⟩ := mem_okPrefix _ _ h
      injection hs with _ h2
      exact absurd h2 hr
    · exact absurd ((stage_mem_observable _ k r).1 h)
        (Sys.run_noStage env.Start env.Stop env.schedule _ (by simp [Sys.init]) k r)

/-! ## Theorems: bootstrap and shutdown -/

theorem RunService.stageError_isSome (f : RunServiceFlags) (k : Stage) (r : StageResult)
    (hr : r ≠ StageResult.done) : ∃ e, RunService.stageError f k r = some e := by
  cases r with
  | done => exact absurd rfl hr
  | refused =>
    by_cases hk : k = Stage.networkExistence
    · exact ⟨GoError.networkDoesNotExist f.Network, by simp [RunService.stageError, hk]⟩
    · exact ⟨ErrProgramIsNotInitialised, by simp [RunService.stageError, hk]⟩
  | failed c =>
    cases hp : k.purpose with
    | none => exact ⟨c, by simp [RunService.stageError, hp]⟩
    | some msg => exact ⟨GoError.wrap msg c, by simp [RunService.stageError, hp]⟩

theorem invokedIn_aborted (k j : Stage) (r : StageResult) (h : k.idx < j.idx) :
    invokedIn (okPrefix (k.idx - 1) ++ [Event.stage k r] ++
      (if 10 ≤ k.idx then [Event.cancel] else [])) j = false := by
  have h1 : invokedIn (okPrefix (k.idx - 1)) j = false := by
    rw [invokedIn_okPrefix_pred]
    exact decide_eq_false (by omega)
  have h2 : k ≠ j := fun e => by subst e; omega
  unfold invokedIn at h1 ⊢
  rw [List.any_append, List.any_append, h1]
  split <;> simp [h2]

theorem spawnedIn_aborted (k : Stage) (r : StageResult) :
    spawnedIn (okPrefix (k.idx - 1) ++ [Event.stage k r] ++
      (if 10 ≤ k.idx then [Event.cancel] else [])) = false := by
  have h1 := spawnedIn_okPrefix_pred k
  unfold spawnedIn at h1 ⊢
  rw [List.any_append, List.any_append, h1]
  split <;> simp

theorem stopCount_aborted (k : Stage) (r : StageResult) :
    stopCount (okPrefix (k.idx - 1) ++ [Event.stage k r] ++
      (if 10 ≤ k.idx then [Event.cancel] else [])) = 0 := by
  have h1 := stopCount_okPrefix_pred k
  unfold stopCount at h1 ⊢
  rw [List.countP_append, List.countP_append, h1]
  split <;> simp [Event.isStop]

/-- C6: bootstrap is fail-fast in stage order. If every stage before `k` produced
its handle and stage `k` did not, `RunService` returns an error, no stage after `k`
is invoked, the goroutine that starts the service is never started and `srv.Stop` is
never called. In particular, after a failed network-existence stage the network
version query, the forwarder and the node selector are not invoked, and when the
network store answers that the network does not exist the error returned is the
does-not-exist error for the named network. -/
theorem RunService_fail_fast (env : Env) (rf : RootFlags) (f : RunServiceFlags) (k : Stage)
    (_hprev : ∀ j : Stage, j.idx < k.idx → succeededIn (RunService env rf f).1 j = true)
    (hk : failedIn (RunService env rf f).1 k = true) :
    (∃ e, (RunService env rf f).2 = Outcome.returned (some e)) ∧
    (∀ j : Stage, k.idx < j.idx → invokedIn (RunService env rf f).1 j = false) ∧
    spawnedIn (RunService env rf f).1 = false ∧
    stopCount (RunService env rf f).1 = 0 ∧
    (k = Stage.networkExistence →
      invokedIn (RunService env rf f).1 Stage.networkVersion = false ∧
      invokedIn (RunService env rf f).1 Stage.forwarder = false ∧
      invokedIn (RunService env rf f).1 Stage.nodeSelector = false) ∧
    (Event.stage Stage.networkExistence StageResult.refused ∈ (RunService env rf f).1 →
      (RunService env rf f).2
        = Outcome.returned (some (GoError.networkDoesNotExist f.Network))) := by
  obtain ⟨r, hr, hm⟩ := (failedIn_iff _ _).1 hk
  have hs := RunService_shape env rf f
  obtain ⟨ho, hobs⟩ := hs.of_failed k r hr hm
  have hinv : ∀ j : Stage, k.idx < j.idx → invokedIn (RunService env rf f).1 j = false := by
    intro j hj
    rw [← invokedIn_observable, hobs]
    exact invokedIn_aborted k j r hj
  refine ⟨?_, hinv, ?_, ?_, ?_, ?_⟩
  · obtain ⟨e, he⟩ := RunService.stageError_isSome f k r hr
    exact ⟨e, by rw [ho, he]⟩
  · rw [← spawnedIn_observable, hobs]
    exact spawnedIn_aborted k r
  · rw [← stopCount_observable, hobs]
    exact stopCount_aborted k r
  · intro hke
    subst hke
    exact ⟨hinv _ (by decide), hinv _ (by decide), hinv _ (by decide)⟩
  · intro hm'
    exact (hs.of_failed Stage.networkExistence StageResult.refused (by simp) hm').1

theorem RunService_fail_fast_witness :
    failedIn (RunService unknownNetworkEnv sampleRoot sampleFlags).1 Stage.networkExistence
      = true ∧
    invokedIn (RunService unknownNetworkEnv sampleRoot sampleFlags).1 Stage.networkVersion
      = false ∧
    (RunService unknownNetworkEnv sampleRoot sampleFlags).2
      = Outcome.returned (some (GoError.networkDoesNotExist "fairground")) :=
  ⟨by decide,
   (RunService_fail_fast unknownNetworkEnv sampleRoot sampleFlags Stage.networkExistence
      (fun j hj => by cases j <;> first | rfl | exact absurd hj (by decide))
      (by decide)).2.1 Stage.networkVersion (by decide),
   (RunService_fail_fast unknownNetworkEnv sampleRoot sampleFlags Stage.networkExistence
      (fun j hj => by cases j <;> first | rfl | exact absurd hj (by decide))
      (by decide)).2.2.2.2.2 (by decide)⟩

/-- C7: when every earlier stage succeeded and `IsInitialised` answers `false` with
no error, `RunService` returns exactly `ErrProgramIsNotInitialised`, which wraps no
other error, and the authentication subsystem, the node forwarder, the node
selector, the API client and the service are never constructed. -/
theorem RunService_not_initialised (env : Env) (rf : RootFlags) (f : RunServiceFlags)
    (_hprev : ∀ j : Stage, j.idx < Stage.initCheck.idx →
      succeededIn (RunService env rf f).1 j = true)
    (h : Event.stage Stage.initCheck StageResult.refused ∈ (RunService env rf f).1) :
    (RunService env rf f).2 = Outcome.returned (some ErrProgramIsNotInitialised) ∧
    (∀ msg cause, ErrProgramIsNotInitialised ≠ GoError.wrap msg cause) ∧
    invokedIn (RunService env rf f).1 Stage.auth = false ∧
    invokedIn (RunService env rf f).1 Stage.forwarder = false ∧
    invokedIn (RunService env rf f).1 Stage.nodeSelector = false ∧
    invokedIn (RunService env rf f).1 Stage.apiClient = false ∧
    invokedIn (RunService env rf f).1 Stage.serviceAssembly = false ∧
    spawnedIn (RunService env rf f).1 = false := by
  have hs := RunService_shape env rf f
  obtain ⟨ho, hobs⟩ := hs.of_failed Stage.initCheck StageResult.refused (by simp) h
  have hinv : ∀ j : Stage, Stage.initCheck.idx < j.idx →
      invokedIn (RunService env rf f).1 j = false := by
    intro j hj
    rw [← invokedIn_observable, hobs]
    exact invokedIn_aborted _ j _ hj
  refine ⟨ho, ?_, hinv _ (by decide), hinv _ (by decide), hinv _ (by decide),
    hinv _ (by decide), hinv _ (by decide), ?_⟩
  · intro msg cause hc
    cases hc
  · rw [← spawnedIn_observable, hobs]
    exact spawnedIn_aborted _ _

theorem RunService_not_initialised_witness :
    Event.stage Stage.initCheck StageResult.refused
      ∈ (RunService uninitialisedEnv sampleRoot sampleFlags).1 ∧
    (RunService uninitialisedEnv sampleRoot sampleFlags).2
      = Outcome.returned (some ErrProgramIsNotInitialised) :=
  ⟨by decide,
   (RunService_not_initialised uninitialisedEnv sampleRoot sampleFlags
      (fun j hj => by cases j <;> first | rfl | exact absurd hj (by decide))
      (by decide)).1⟩

/-- C8, as stated, fails: when the passphrase file cannot be read, `RunService`
returns the cause itself, not an error wrapping it. -/
theorem RunService_stage_attribution_counterexample :
    Event.stage Stage.passphraseRead (StageResult.failed noSuchFile)
      ∈ (RunService unreadableEnv sampleRoot sampleFlags).1 ∧
    (RunService unreadableEnv sampleRoot sampleFlags).2
      = Outcome.returned (some noSuchFile) ∧
    ¬ ∃ msg, (RunService unreadableEnv sampleRoot sampleFlags).2
      = Outcome.returned (some (GoError.wrap msg noSuchFile)) := by
  have h : (RunService unreadableEnv sampleRoot sampleFlags).2
      = Outcome.returned (some noSuchFile) := by decide
  refine ⟨by decide, h, ?_⟩
  rintro ⟨msg, hm⟩
  rw [h] at hm
  injection hm with hm
  injection hm with hm
  exact GoError.wrap_ne msg noSuchFile hm.symm

/-- C8, amended: a stage that fails with cause `e` makes `RunService` return an
error carrying `e`. For the logger build, wallet store, wallet unlock, network
store, network existence query, network configuration fetch, service store,
initialisation query, authentication, forwarder, node selector and API client, the
error returned is `e` wrapped with the message naming the stage, and so is never `e`
itself. For the passphrase read, the connectivity precondition, the network version
query and the service assembly, the error returned is `e` itself. -/
theorem RunService_stage_attribution (env : Env) (rf : RootFlags) (f : RunServiceFlags)
    (k : Stage) (e : GoError)
    (h : Event.stage k (StageResult.failed e) ∈ (RunService env rf f).1) :
    (∀ msg, k.purpose = some msg →
      (RunService env rf f).2 = Outcome.returned (some (GoError.wrap msg e)) ∧
      GoError.wrap msg e ≠ e) ∧
    (k.purpose = none → (RunService env rf f).2 = Outcome.returned (some e)) ∧
    (k.purpose = none ↔
      k = Stage.passphraseRead ∨ k = Stage.connectivity ∨ k = Stage.networkVersion ∨
        k = Stage.serviceAssembly) := by
  have ho := ((RunService_shape env rf f).of_failed k (StageResult.failed e) (by simp) h).1
  refine ⟨?_, ?_, ?_⟩
  · intro msg hp
    refine ⟨?_, GoError.wrap_ne msg e⟩
    rw [ho]
    simp [RunService.stageError, hp]
  · intro hp
    rw [ho]
    simp [RunService.stageError, hp]
  · cases k <;> simp [Stage.purpose]

theorem RunService_stage_attribution_witness :
    Event.stage Stage.walletStore (StageResult.failed noSuchFile)
      ∈ (RunService brokenWalletStoreEnv sampleRoot sampleFlags).1 ∧
    (RunService brokenWalletStoreEnv sampleRoot sampleFlags).2
      = Outcome.returned
          (some (GoError.wrap "couldn't initialise wallets store" noSuchFile)) :=
  ⟨by decide,
   ((RunService_stage_attribution brokenWalletStoreEnv sampleRoot sampleFlags
      Stage.walletStore noSuchFile (by decide)).1 "couldn't initialise wallets store"
      rfl).1⟩

/-- Whenever the log format is neither `json` nor `console` and the passphrase file
can be read, `RunService` reaches `logger.Named` with the nil logger. -/
theorem RunService_panics_of_unsupported_format (env : Env) (rf : RootFlags)
    (f : RunServiceFlags) (passphrase : String)
    (h1 : env.ReadPassphraseFile f.PassphraseFile = Except.ok passphrase)
    (hj : f.LogFormat ≠ "json") (hc : f.LogFormat ≠ "console") :
    RunService env rf f
      = ([Event.stage Stage.passphraseRead StageResult.done], Outcome.panicked) := by
  have h2 : RunService.selectLogger env f = Run.cont [] none := by
    unfold RunService.selectLogger
    simp [hj, hc, Run.pure_eq]
  unfold RunService RunService.body
  simp only [Run.bind_eq, Run.pure_eq, h1, h2, Run.invoke, Run.bind_cont, Run.bind_halt,
    Run.after_cont, Run.after_halt, Run.panic, Run.exec, List.append_nil]

/-- C10, at the failing input: the flags `--log-format xml` pass `Validate`, no logger
is built, and `RunService` reaches `logger.Named` with the nil logger, where it
panics; the wallet store is never opened. -/
theorem RunService_nil_logger_at_xml :
    xmlFlags.Validate = none ∧
    invokedIn (RunService sampleEnv sampleRoot xmlFlags).1 Stage.loggerBuild = false ∧
    (RunService sampleEnv sampleRoot xmlFlags).2 = Outcome.panicked ∧
    (NewCmdRunService.RunE sampleEnv sampleRoot xmlFlags).2 = Outcome.panicked ∧
    invokedIn (RunService sampleEnv sampleRoot xmlFlags).1 Stage.walletStore = false := by
  refine ⟨by decide, by decide, by decide, by decide, by decide⟩

/-! ## Theorems: shutdown -/

theorem stopCount_append (a b : List Event) : stopCount (a ++ b) = stopCount a + stopCount b := by
  simp [stopCount, List.countP_append]

theorem Sys.stopCount_emit (s : Sys) (e : Event) :
    stopCount (s.emit e).trace = stopCount s.trace + (if e.isStop then 1 else 0) := by
  simp only [Sys.emit, stopCount, List.countP_append, List.countP_cons, List.countP_nil]
  simp

/-- A step of a path that never stops the service leaves it so and adds no stop. -/
theorem Prog.NoStop.preserved {startResult stopResult : Service → Option GoError}
    {preferDone : Bool} {p p' : Prog} {s s' : Sys} (hp : p.NoStop)
    (hr : ∀ r, s.routine = some r → r.NoStop)
    (h : p.step startResult stopResult preferDone s = some (p', s')) :
    p'.NoStop ∧ stopCount s'.trace = stopCount s.trace ∧ s'.main = s.main ∧
      s'.crashed = s.crashed ∧ (∀ r, s'.routine = some r → r.NoStop) := by
  cases hp with
  | ret => simp [Prog.step] at h
  | select hf hd =>
    simp only [Prog.step] at h
    split at h <;> (try split at h) <;>
      first
      | (simp at h; done)
      | (simp only [Option.some.injEq, Prod.mk.injEq] at h
         obtain ⟨h1, h2⟩ := h
         subst h1; subst h2
         first
         | exact ⟨hd, rfl, rfl, rfl, hr⟩
         | exact ⟨hf _, by simp [Sys.stopCount_emit, Event.isStop], rfl, rfl, hr⟩)
  | spawn hc hk =>
    simp only [Prog.step, Option.some.injEq, Prod.mk.injEq] at h
    obtain ⟨h1, h2⟩ := h
    subst h1; subst h2
    refine ⟨hk, by simp [Sys.stopCount_emit, Event.isStop], rfl, rfl, ?_⟩
    intro r hr'
    simp only [Option.some.injEq] at hr'
    subst hr'
    exact hc
  | start hk =>
    simp only [Prog.step, Option.some.injEq, Prod.mk.injEq] at h
    obtain ⟨h1, h2⟩ := h
    subst h1; subst h2
    exact ⟨hk _, by simp [Sys.stopCount_emit, Event.isStop], rfl, rfl, hr⟩
  | log hk =>
    simp only [Prog.step, Option.some.injEq, Prod.mk.injEq] at h
    obtain ⟨h1, h2⟩ := h
    subst h1; subst h2
    exact ⟨hk, by simp [Sys.stopCount_emit, Event.isStop], rfl, rfl, hr⟩
  | cancel hk =>
    simp only [Prog.step, Option.some.injEq, Prod.mk.injEq] at h
    obtain ⟨h1, h2⟩ := h
    subst h1; subst h2
    exact ⟨hk, by simp [Sys.stopCount_emit, Event.isStop], rfl, rfl, hr⟩
  | notify hk =>
    simp only [Prog.step, Option.some.injEq, Prod.mk.injEq] at h
    obtain ⟨h1, h2⟩ := h
    subst h1; subst h2
    exact ⟨hk, by simp [Sys.stopCount_emit, Event.isStop], rfl, rfl, hr⟩
  | close hk =>
    simp only [Prog.step, Option.some.injEq, Prod.mk.injEq] at h
    obtain ⟨h1, h2⟩ := h
    subst h1; subst h2
    exact ⟨hk, by simp [Sys.stopCount_emit, Event.isStop], rfl, rfl, hr⟩

/-- A step of a path with `n` stops to go leaves `n'` to go, the stops made and to
go adding up as before. -/
theorem Prog.StopsExactly.advance {startResult stopResult : Service → Option GoError}
    {preferDone : Bool} {n : Nat} {p p' : Prog} {s s' : Sys} (hp : p.StopsExactly n)
    (hr : ∀ r, s.routine = some r → r.NoStop)
    (h : p.step startResult stopResult preferDone s = some (p', s')) :
    ∃ n', p'.StopsExactly n' ∧ stopCount s'.trace + n' = stopCount s.trace + n ∧
      s'.crashed = s.crashed ∧ (∀ r, s'.routine = some r → r.NoStop) := by
  cases hp with
  | ret => simp [Prog.step] at h
  | select hf hd =>
    simp only [Prog.step] at h
    split at h <;> (try split at h) <;>
      first
      | (simp at h; done)
      | (simp only [Option.some.injEq, Prod.mk.injEq] at h
         obtain ⟨h1, h2⟩ := h
         subst h1; subst h2
         first
         | exact ⟨n, hd, rfl, rfl, hr⟩
         | exact ⟨n, hf _, by simp [Sys.stopCount_emit, Event.isStop], rfl, hr⟩)
  | spawn hc hk =>
    simp only [Prog.step, Option.some.injEq, Prod.mk.injEq] at h
    obtain ⟨h1, h2⟩ := h
    subst h1; subst h2
    refine ⟨n, hk, by simp [Sys.stopCount_emit, Event.isStop], rfl, ?_⟩
    intro r hr'
    simp only [Option.some.injEq] at hr'
    subst hr'
    exact hc
  | stop hk =>
    rename_i m srv next
    simp only [Prog.step, Option.some.injEq, Prod.mk.injEq] at h
    obtain ⟨h1, h2⟩ := h
    subst h1; subst h2
    refine ⟨m, hk _, ?_, rfl, hr⟩
    simp [Sys.stopCount_emit, Event.isStop]
    omega
  | start hk =>
    simp only [Prog.step, Option.some.injEq, Prod.mk.injEq] at h
    obtain ⟨h1, h2⟩ := h
    subst h1; subst h2
    exact ⟨n, hk _, by simp [Sys.stopCount_emit, Event.isStop], rfl, hr⟩
  | log hk =>
    simp only [Prog.step, Option.some.injEq, Prod.mk.injEq] at h
    obtain ⟨h1, h2⟩ := h
    subst h1; subst h2
    exact ⟨n, hk, by simp [Sys.stopCount_emit, Event.isStop], rfl, hr⟩
  | cancel hk =>
    simp only [Prog.step, Option.some.injEq, Prod.mk.injEq] at h
    obtain ⟨h1, h2⟩ := h
    subst h1; subst h2
    exact ⟨n, hk, by simp [Sys.stopCount_emit, Event.isStop], rfl, hr⟩
  | notify hk =>
    simp only [Prog.step, Option.some.injEq, Prod.mk.injEq] at h
    obtain ⟨h1, h2⟩ := h
    subst h1; subst h2
    exact ⟨n, hk, by simp [Sys.stopCount_emit, Event.isStop], rfl, hr⟩
  | close hk =>
    simp only [Prog.step, Option.some.injEq, Prod.mk.injEq] at h
    obtain ⟨h1, h2⟩ := h
    subst h1; subst h2
    exact ⟨n, hk, by simp [Sys.stopCount_emit, Event.isStop], rfl, hr⟩

theorem Sys.stopCount_deliver (sig : Signal) (s : Sys) :
    stopCount (s.deliver sig).trace = stopCount s.trace ∧ (s.deliver sig).main = s.main ∧
      (s.deliver sig).routine = s.routine := by
  unfold Sys.deliver
  split
  · split
    · simp [stopCount_append, stopCount, Event.isStop]
    · split <;> simp [stopCount_append, stopCount, Event.isStop]
  · exact ⟨rfl, rfl, rfl⟩

/-- Every move keeps the balance: the stops made and the stops the main path still
has to make add up to one, and the goroutine makes none. -/
theorem Sys.step_balanced (startResult stopResult : Service → Option GoError) (l : Label)
    (s : Sys) (hm : ∃ n, s.main.StopsExactly n ∧ stopCount s.trace + n = 1)
    (hr : ∀ r, s.routine = some r → r.NoStop) :
    (∃ n, (s.step startResult stopResult l).main.StopsExactly n ∧
      stopCount (s.step startResult stopResult l).trace + n = 1) ∧
    (∀ r, (s.step startResult stopResult l).routine = some r → r.NoStop) := by
  obtain ⟨n, hn, hc⟩ := hm
  unfold Sys.step
  split
  · exact ⟨⟨n, hn, hc⟩, hr⟩
  · cases l with
    | deliver sig =>
      obtain ⟨h1, h2, h3⟩ := Sys.stopCount_deliver sig s
      simp only
      rw [h1, h2, h3]
      exact ⟨⟨n, hn, hc⟩, hr⟩
    | step who preferDone =>
      cases who with
      | main =>
        simp only
        cases h : s.main.step startResult stopResult preferDone s with
        | none => exact ⟨⟨n, hn, hc⟩, hr⟩
        | some ps =>
          obtain ⟨p, s'⟩ := ps
          obtain ⟨n', hn', hc', _, hr'⟩ := hn.advance hr h
          exact ⟨⟨n', hn', by simp only; omega⟩, hr'⟩
      | routine =>
        simp only
        cases hro : s.routine with
        | none => exact ⟨⟨n, hn, hc⟩, by simp [hro]⟩
        | some r =>
          simp only
          cases h : r.step startResult stopResult preferDone s with
          | none => exact ⟨⟨n, hn, hc⟩, by simpa [hro] using hr⟩
          | some ps =>
            obtain ⟨p, s'⟩ := ps
            obtain ⟨hp, hc', hmain, _, _⟩ := (hr r hro).preserved hr h
            refine ⟨⟨n, ?_, ?_⟩, ?_⟩
            · simp only
              rw [hmain]
              exact hn
            · simp only
              omega
            · intro r' hr'
              simp only [Option.some.injEq] at hr'
              subst hr'
              exact hp

theorem Sys.run_balanced (startResult stopResult : Service → Option GoError)
    (schedule : List Label) :
    ∀ s : Sys, (∃ n, s.main.StopsExactly n ∧ stopCount s.trace + n = 1) →
      (∀ r, s.routine = some r → r.NoStop) →
      ∃ n, (s.run startResult stopResult schedule).main.StopsExactly n ∧
        stopCount (s.run startResult stopResult schedule).trace + n = 1 := by
  induction schedule with
  | nil => intro s hm _; exact hm
  | cons l ls ih =>
    intro s hm hr
    obtain ⟨hm', hr'⟩ := Sys.step_balanced startResult stopResult l s hm hr
    exact ih _ hm' hr'

theorem RunService.serve_noStop (logger : Logger) (cfg : Network) (srv : Service) :
    (RunService.serve logger cfg srv).NoStop := by
  unfold RunService.serve
  refine Prog.NoStop.log (Prog.NoStop.start ?_)
  intro e
  cases e with
  | none => exact Prog.NoStop.cancel Prog.NoStop.ret
  | some e =>
    simp only
    split
    · exact Prog.NoStop.log (Prog.NoStop.cancel Prog.NoStop.ret)
    · exact Prog.NoStop.cancel Prog.NoStop.ret

theorem RunService.lifecycle_stopsExactly (logger : Logger) (cfg : Network) (srv : Service) :
    (RunService.lifecycle logger cfg srv).StopsExactly 1 := by
  have hk : (RunService.deferredStop logger srv (Prog.cancel Prog.ret)).StopsExactly 1 := by
    unfold RunService.deferredStop
    refine Prog.StopsExactly.stop ?_
    intro e
    cases e with
    | none => exact Prog.StopsExactly.log (Prog.StopsExactly.cancel Prog.StopsExactly.ret)
    | some e => exact Prog.StopsExactly.log (Prog.StopsExactly.cancel Prog.StopsExactly.ret)
  unfold RunService.lifecycle waitSig
  refine Prog.StopsExactly.spawn (RunService.serve_noStop logger cfg srv) ?_
  refine Prog.StopsExactly.notify (Prog.StopsExactly.notify (Prog.StopsExactly.notify
    (Prog.StopsExactly.select ?_ (Prog.StopsExactly.close hk))))
  intro sig
  exact Prog.StopsExactly.log (Prog.StopsExactly.cancel (Prog.StopsExactly.close hk))

/-- In every execution `srv.Stop` is called at most once; it is not called when the
bootstrap fails; and it has been called exactly once whenever `RunService` returns
`nil`. -/
theorem RunService_stop_count (env : Env) (rf : RootFlags) (f : RunServiceFlags) :
    stopCount (RunService env rf f).1 ≤ 1 ∧
    (succeededIn (RunService env rf f).1 Stage.serviceAssembly = false →
      stopCount (RunService env rf f).1 = 0) ∧
    ((RunService env rf f).2 = Outcome.returned none →
      stopCount (RunService env rf f).1 = 1) := by
  generalize ht : (RunService env rf f).1 = t
  generalize ho : (RunService env rf f).2 = o
  have hs := RunService_shape env rf f
  rw [ht, ho] at hs
  cases hs with
  | aborted k r _ hr _ hobs =>
    have h0 : stopCount t = 0 := by
      rw [← stopCount_observable, hobs]
      exact stopCount_aborted k r
    refine ⟨by omega, fun _ => h0, ?_⟩
    intro h
    obtain ⟨e, he⟩ := RunService.stageError_isSome f k r hr
    rw [he] at h
    cases h
  | nilLogger _ _ _ hobs =>
    have h0 : stopCount t = 0 := by
      rw [← stopCount_observable, hobs]
      rfl
    exact ⟨by omega, fun _ => h0, fun h => by cases h⟩
  | live logger cfg srv pre hobs =>
    have hpre : stopCount pre = 0 := by
      rw [← stopCount_observable, hobs]
      rfl
    obtain ⟨n, hn, hc⟩ := Sys.run_balanced env.Start env.Stop env.schedule
      (Sys.init (RunService.lifecycle logger cfg srv))
      ⟨1, RunService.lifecycle_stopsExactly logger cfg srv, rfl⟩
      (by simp [Sys.init])
    rw [stopCount_append, hpre]
    refine ⟨by omega, ?_, ?_⟩
    · intro hf
      rw [← succeededIn_observable, observable_append, hobs] at hf
      have hall : succeededIn (okPrefix 16) Stage.serviceAssembly = true := rfl
      unfold succeededIn at hall hf
      rw [List.any_append, hall] at hf
      simp at hf
    · intro hret
      unfold Sys.outcome at hret
      split at hret
      · cases hret
      · split at hret
        · rename_i hmain
          cases hp : (Sys.run env.Start env.Stop env.schedule
              (Sys.init (RunService.lifecycle logger cfg srv))).main with
          | ret =>
            rw [hp] at hn
            cases hn
            omega
          | _ => simp [hp, Prog.isRet] at hmain
        · cases hret

/-- The same program under two other schedules: an interrupt while the service runs
ends in a return of `nil` after one call of `srv.Stop`, and with no signal and a
serving goroutine the main path stays in `waitSig`, with `srv.Stop` not called. -/
theorem RunService_lifecycle_examples :
    ((RunService sampleEnv sampleRoot sampleFlags).2 = Outcome.returned none ∧
      stopCount (RunService sampleEnv sampleRoot sampleFlags).1 = 1) ∧
    ((RunService servingEnv sampleRoot sampleFlags).2 = Outcome.running ∧
      stopCount (RunService servingEnv sampleRoot sampleFlags).1 = 0) := by
  decide

/-- C9, at the failing inputs: the bootstrap succeeds and `waitSig` returns, closing
`gracefulStop` while it is still registered with `os/signal`; an interrupt delivered
next is relayed to the closed channel, the process dies in that panic, and `srv.Stop`
has not been called. This happens when both triggers fire (the goroutine cancels the
context after `srv.Start` fails, then a signal arrives) and when two signals arrive
one after the other. -/
theorem RunService_late_signal_skips_stop :
    (succeededIn (RunService portTakenEnv sampleRoot sampleFlags).1 Stage.serviceAssembly
        = true ∧
      (observable (RunService portTakenEnv sampleRoot sampleFlags).1).drop 16
        = [Event.spawn, Event.start { id := 8 } (some addressInUse), Event.cancel,
           Event.signalNotify Signal.SIGTERM, Event.signalNotify Signal.SIGINT,
           Event.signalNotify Signal.SIGQUIT, Event.closeGracefulStop,
           Event.delivered Signal.SIGINT, Event.sendOnClosedChannel Signal.SIGINT] ∧
      stopCount (RunService portTakenEnv sampleRoot sampleFlags).1 = 0 ∧
      (RunService portTakenEnv sampleRoot sampleFlags).2 = Outcome.panicked) ∧
    (succeededIn (RunService doubleInterruptEnv sampleRoot sampleFlags).1
        Stage.serviceAssembly = true ∧
      (observable (RunService doubleInterruptEnv sampleRoot sampleFlags).1).drop 16
        = [Event.spawn, Event.signalNotify Signal.SIGTERM,
           Event.signalNotify Signal.SIGINT, Event.signalNotify Signal.SIGQUIT,
           Event.delivered Signal.SIGINT, Event.received (some Signal.SIGINT),
           Event.cancel, Event.closeGracefulStop, Event.delivered Signal.SIGINT,
           Event.sendOnClosedChannel Signal.SIGINT] ∧
      stopCount (RunService doubleInterruptEnv sampleRoot sampleFlags).1 = 0 ∧
      (RunService doubleInterruptEnv sampleRoot sampleFlags).2 = Outcome.panicked) := by
  decide

end VegaWalletDummy
